import Mathlib

/-!
Shallow embedding of the netmonitor detection core (risk_scoring.py, soar.py,
protocol_parser.py, encrypted_traffic_analyzer.py, tls_analyzer.py) and proofs
about the claims of the specification.

Modelling conventions:
* Python `bytes` are `List Nat` (each element a byte value).
* Python `float` is modelled by `ℚ` (the float values appearing in the
  detection arithmetic are small decimals; the claims are order/equality facts
  that hold for the rational semantics).
* `time.time()` is an explicit `now : ℚ` argument threaded to every operation.
* Python dicts keyed by strings are association lists `List (String × α)`
  (insertion order preserved, like Python dicts).
* Python exceptions are `Except PyErr`; a `try/except` of the source is an
  explicit `match` on the `Except` value.  Functions whose Python bodies
  cannot raise (every indexing is guarded or every fallible call has an
  internal handler) are given total types.
-/

namespace NetMon

/-- Python exception values; only the kind matters for the model. -/
inductive PyErr : Type
  | indexError
  | structError
  deriving DecidableEq, Repr

/-- Raw byte payloads. -/
abbrev Bytes := List Nat

/-- Python slice `data[a:b]` for `0 ≤ a ≤ b` (clamped, never raises). -/
def pySlice (data : Bytes) (a b : Nat) : Bytes :=
  ((data.drop a).take (b - a))

/-- Python slice `data[a:]`. -/
def pyDrop (data : Bytes) (a : Nat) : Bytes := data.drop a

/-- Python indexing `data[i]` with a nonnegative index: raises `IndexError`
when out of range. -/
def pyGet (data : Bytes) (i : Nat) : Except PyErr Nat :=
  match data.get? i with
  | some b => .ok b
  | none => .error .indexError

/-- `int.from_bytes(bs, 'big')` (total in Python). -/
def intFromBytesBE (bs : Bytes) : Nat :=
  bs.foldl (fun acc b => acc * 256 + b) 0

/-- `struct.unpack('>H', bs)[0]`: requires exactly two bytes. -/
def unpackBE2 (bs : Bytes) : Except PyErr Nat :=
  match bs with
  | [b0, b1] => .ok (b0 * 256 + b1)
  | _ => .error .structError

/-- `struct.unpack('<H', bs)[0]`: requires exactly two bytes. -/
def unpackLE2 (bs : Bytes) : Except PyErr Nat :=
  match bs with
  | [b0, b1] => .ok (b0 + b1 * 256)
  | _ => .error .structError

/-- `struct.unpack('>I', b'\x00' + bs)[0]`: requires exactly three bytes. -/
def unpackBE3 (bs : Bytes) : Except PyErr Nat :=
  match bs with
  | [b0, b1, b2] => .ok ((b0 * 256 + b1) * 256 + b2)
  | _ => .error .structError

/-- First index at which `pat` occurs in `l` (`bytes.find` / `str.find`,
with `none` for Python's `-1`). -/
def findSubFrom [DecidableEq α] (l pat : List α) (start : Nat) : Option Nat :=
  match l with
  | [] => if pat = [] ∧ start = 0 then some 0 else none
  | _ :: tl =>
    if start = 0 then
      if pat.isPrefixOf l then some 0
      else (findSubFrom tl pat 0).map (· + 1)
    else (findSubFrom tl pat (start - 1)).map (· + 1)

def findSub [DecidableEq α] (l pat : List α) : Option Nat := findSubFrom l pat 0

/-- Append to a `deque(maxlen := n)`: drop from the left when full. -/
def pushMax (n : Nat) (xs : List α) (x : α) : List α :=
  let ys := xs ++ [x]
  ys.drop (ys.length - n)

/-- Association-list lookup (`d.get(k)` / `d[k]` after a membership check). -/
def lookupA (l : List (String × α)) (k : String) : Option α :=
  match l with
  | [] => none
  | (k', v) :: tl => if k' = k then some v else lookupA tl k

/-- `d.get(k, dflt)`. -/
def getDA (l : List (String × α)) (k : String) (dflt : α) : α :=
  (lookupA l k).getD dflt

/-- Dict assignment `d[k] = v`: replaces in place or appends (insertion
order preserved, as for Python dicts). -/
def setA (l : List (String × α)) (k : String) (v : α) : List (String × α) :=
  match l with
  | [] => [(k, v)]
  | (k', v') :: tl => if k' = k then (k', v) :: tl else (k', v') :: setA tl k v

/-- `d.pop(k)`: the dict without key `k` (first binding). -/
def removeA (l : List (String × α)) (k : String) : List (String × α) :=
  match l with
  | [] => []
  | (k', v') :: tl => if k' = k then tl else (k', v') :: removeA tl k

/-! ### String helpers (ASCII-faithful models of the Python `str` methods) -/

/-- Python `str.lower()` restricted to ASCII (the strings compared by the
detection logic are ASCII). -/
def asciiLower (s : String) : String :=
  String.mk (s.data.map Char.toLower)

/-- Python `needle in hay` for strings (substring test). -/
def strContains (hay needle : String) : Bool :=
  (findSub hay.data needle.data).isSome

/-- Python `hay.find(needle)` (`none` for `-1`). -/
def strFind (hay needle : String) : Option Nat :=
  findSub hay.data needle.data

/-- Python `hay.find(needle, start)`. -/
def strFindFrom (hay needle : String) (start : Nat) : Option Nat :=
  (findSubFrom (hay.data.drop start) needle.data 0).map (· + start)

/-- Python `s[a:b]` on strings. -/
def strSlice (s : String) (a b : Nat) : String :=
  String.mk ((s.data.drop a).take (b - a))

/-- Python `s.split(sep)` for a single-character separator. -/
def splitOnChar (s : String) (c : Char) : List String :=
  (s.data.splitOn c).map String.mk

/-- Python `s.strip(chars)` for an explicit character set. -/
def stripChars (s : String) (cs : List Char) : String :=
  String.mk (((s.data.dropWhile (cs.contains ·)).reverse.dropWhile
    (cs.contains ·)).reverse)

/-- Python `s.strip()` (ASCII whitespace). -/
def stripWs (s : String) : String :=
  stripChars s [' ', '\t', '\n', '\r', '\x0b', '\x0c']

/-- Python `s.isalnum()` restricted to ASCII. -/
def isAlnumAscii (s : String) : Bool :=
  s ≠ "" && s.data.all (fun c => c.isAlpha || c.isDigit)

/-- Python `s.endswith(t)`. -/
def strEndsWith (s t : String) : Bool :=
  t.data.isSuffixOf s.data

/-- Python `s.startswith(t)`. -/
def strStartsWith (s t : String) : Bool :=
  t.data.isPrefixOf s.data

/-- `str(n)` for a natural number. -/
def natStr (n : Nat) : String := toString n

/-! ### `bytes.decode` models

`decode(..., errors='ignore')` never raises; invalid sequences are dropped.
The inputs the proofs evaluate on are ASCII, where these models agree with
CPython exactly; on malformed non-ASCII input they drop invalid bytes one at
a time (CPython may drop a maximal subpart, a difference that no claim
observes). -/

def utf8Cont (b : Nat) : Bool := 0x80 ≤ b && b ≤ 0xBF

/-- Fuel-indexed UTF-8 decoding loop; each step consumes at least one byte,
so `fuel = l.length` reproduces the unbounded loop. -/
def decodeUtf8Go : Nat → Bytes → List Char
  | 0, _ => []
  | _ + 1, [] => []
  | fuel + 1, b :: rest =>
    if b < 0x80 then Char.ofNat b :: decodeUtf8Go fuel rest
    else if 0xC2 ≤ b ∧ b ≤ 0xDF then
      match rest with
      | c1 :: r2 =>
        if utf8Cont c1 then
          Char.ofNat ((b - 0xC0) * 64 + (c1 - 0x80)) :: decodeUtf8Go fuel r2
        else decodeUtf8Go fuel rest
      | [] => []
    else if 0xE0 ≤ b ∧ b ≤ 0xEF then
      match rest with
      | c1 :: c2 :: r3 =>
        if (utf8Cont c1 && utf8Cont c2) &&
            (decide (b = 0xE0) → decide (0xA0 ≤ c1)) &&
            (decide (b = 0xED) → decide (c1 ≤ 0x9F)) then
          Char.ofNat (((b - 0xE0) * 64 + (c1 - 0x80)) * 64 + (c2 - 0x80)) ::
            decodeUtf8Go fuel r3
        else decodeUtf8Go fuel rest
      | _ => decodeUtf8Go fuel rest
    else if 0xF0 ≤ b ∧ b ≤ 0xF4 then
      match rest with
      | c1 :: c2 :: c3 :: r4 =>
        if ((utf8Cont c1 && utf8Cont c2) && utf8Cont c3) &&
            (decide (b = 0xF0) → decide (0x90 ≤ c1)) &&
            (decide (b = 0xF4) → decide (c1 ≤ 0x8F)) then
          Char.ofNat ((((b - 0xF0) * 64 + (c1 - 0x80)) * 64 + (c2 - 0x80)) * 64
              + (c3 - 0x80)) :: decodeUtf8Go fuel r4
        else decodeUtf8Go fuel rest
      | _ => decodeUtf8Go fuel rest
    else decodeUtf8Go fuel rest

/-- `bs.decode('utf-8', errors='ignore')`. -/
def decodeUtf8Ignore (bs : Bytes) : String :=
  String.mk (decodeUtf8Go bs.length bs)

/-- Fuel-indexed UTF-16-LE decoding loop (fuel as for UTF-8). -/
def decodeUtf16LeGo : Nat → Bytes → List Char
  | 0, _ => []
  | _ + 1, [] => []
  | _ + 1, [_] => []
  | fuel + 1, b0 :: b1 :: rest =>
    let u := b0 + 256 * b1
    if u < 0xD800 ∨ 0xE000 ≤ u then
      Char.ofNat u :: decodeUtf16LeGo fuel rest
    else if u ≤ 0xDBFF then
      match rest with
      | c0 :: c1 :: r2 =>
        let v := c0 + 256 * c1
        if 0xDC00 ≤ v ∧ v ≤ 0xDFFF then
          Char.ofNat (0x10000 + (u - 0xD800) * 1024 + (v - 0xDC00)) ::
            decodeUtf16LeGo fuel r2
        else decodeUtf16LeGo fuel rest
      | _ => decodeUtf16LeGo fuel rest
    else decodeUtf16LeGo fuel rest

/-- `bs.decode('utf-16-le', errors='ignore')`. -/
def decodeUtf16LeIgnore (bs : Bytes) : String :=
  String.mk (decodeUtf16LeGo bs.length bs)

/-- ASCII bytes of a string (used to build concrete packet payloads). -/
def asciiBytes (s : String) : Bytes := s.data.map Char.toNat

instance {ε α : Type} [DecidableEq ε] [DecidableEq α] :
    DecidableEq (Except ε α) :=
  fun a b =>
    match a, b with
    | .ok x, .ok y =>
      if h : x = y then isTrue (congrArg Except.ok h)
      else isFalse (fun c => h (Except.ok.inj c))
    | .error x, .error y =>
      if h : x = y then isTrue (congrArg Except.error h)
      else isFalse (fun c => h (Except.error.inj c))
    | .ok _, .error _ => isFalse (fun c => Except.noConfusion c)
    | .error _, .ok _ => isFalse (fun c => Except.noConfusion c)

end NetMon

namespace NetMon

namespace RiskScoring

/-! ## Embedding of `risk_scoring.py` -/

/-- `AssetCategory` (IntEnum). -/
inductive AssetCategory : Type
  | UNKNOWN | LOW | MEDIUM | HIGH | CRITICAL
  deriving DecidableEq, Repr

/-- `ExposureLevel` (IntEnum). -/
inductive ExposureLevel : Type
  | INTERNAL_ONLY | DMZ | INTERNET_FACING
  deriving DecidableEq, Repr

/-- `SEVERITY_WEIGHTS`. -/
def SEVERITY_WEIGHTS : List (String × ℚ) :=
  [("LOW", 1.0), ("MEDIUM", 3.0), ("HIGH", 7.0), ("CRITICAL", 15.0)]

/-- `ALERT_TYPE_WEIGHTS`. -/
def ALERT_TYPE_WEIGHTS : List (String × ℚ) :=
  [("DCSYNC_ATTACK", 20.0),
   ("KERBEROASTING_ATTACK", 15.0),
   ("ASREP_ROASTING_ATTACK", 15.0),
   ("PASS_THE_HASH_SUSPECTED", 15.0),
   ("C2_COMMUNICATION", 18.0),
   ("MALICIOUS_JA3_FINGERPRINT", 15.0),
   ("NTDS_DIT_ACCESS", 20.0),
   ("LSASS_DUMP_ACCESS", 20.0),
   ("RANSOMWARE_DETECTED", 25.0),
   ("HIGH_RISK_ATTACK_CHAIN", 20.0),
   ("LATERAL_MOVEMENT", 12.0),
   ("DATA_EXFILTRATION", 14.0),
   ("BRUTE_FORCE", 8.0),
   ("KERBEROS_BRUTEFORCE", 8.0),
   ("SMB_ADMIN_SHARE_ACCESS", 10.0),
   ("BEACON_DETECTED", 12.0),
   ("DNS_TUNNEL", 10.0),
   ("PORT_SCAN", 5.0),
   ("INTERNAL_PORT_SCAN", 6.0),
   ("SMB_ENUMERATION", 6.0),
   ("LDAP_ENUMERATION", 6.0),
   ("LDAP_SENSITIVE_ATTR_QUERY", 8.0),
   ("THREAT_FEED_MATCH", 10.0),
   ("BLACKLISTED_IP", 8.0),
   ("CONNECTION_FLOOD", 4.0),
   ("UNUSUAL_PACKET_SIZE", 2.0)]

/-- `AlertRecord` (dataclass); `details` is carried opaquely and unused by
the score computation, so it is omitted. -/
structure AlertRecord where
  timestamp : ℚ
  alert_type : String
  severity : String
  source_ip : String
  destination_ip : String
  is_source : Bool
  deriving DecidableEq, Repr

/-- `AssetRiskProfile` (dataclass).  `kill_chain_stage` is the
max-stage string reported by the kill-chain collaborator. -/
structure AssetRiskProfile where
  ip_address : String
  hostname : Option String
  mac_address : Option String
  device_type : Option String
  category : AssetCategory
  exposure : ExposureLevel
  current_risk_score : ℚ
  max_risk_score : ℚ
  risk_trend : String
  total_alerts : Nat
  alerts_24h : Nat
  alerts_7d : Nat
  alert_types : List (String × Nat)
  is_attacker : Bool
  is_victim : Bool
  attack_chain_count : Nat
  kill_chain_stage : Option String
  last_seen : ℚ
  last_alert : Option ℚ
  deriving DecidableEq, Repr

/-- One attack chain reported by the external kill-chain collaborator
(`get_chains_for_ip`): only `max_stage` is consulted. -/
structure Chain where
  max_stage : Option String
  deriving DecidableEq, Repr

/-- The mutable state of `RiskScorer` plus its configuration.  The external
kill-chain collaborator is a pure query function (`none` models
`kill_chain_detector=None`); `db_manager=None` is assumed (profiles are
created with no device info, as in `_create_profile`'s fallback path). -/
structure RiskScorer where
  enabled : Bool
  decay_rate : ℚ
  decay_interval : ℚ
  killChain : Option (String → List Chain)
  profiles : List (String × AssetRiskProfile)
  alert_history : List (String × List AlertRecord)
  score_history : List (String × List (ℚ × ℚ))

/-- `RiskScorer.__init__` with default config, `db_manager=None` and the
given kill-chain collaborator. -/
def initScorer (killChain : Option (String → List Chain) := none) : RiskScorer :=
  { enabled := true
    decay_rate := 0.1
    decay_interval := 3600
    killChain := killChain
    profiles := []
    alert_history := []
    score_history := [] }

/-- `category_multipliers.get(c, 1.0)` (the dict is total on the enum). -/
def categoryMultiplier : AssetCategory → ℚ
  | .CRITICAL => 2.0
  | .HIGH => 1.5
  | .MEDIUM => 1.0
  | .LOW => 0.7
  | .UNKNOWN => 1.0

/-- `exposure_multipliers.get(e, 1.0)` (the dict is total on the enum). -/
def exposureMultiplier : ExposureLevel → ℚ
  | .INTERNET_FACING => 1.5
  | .DMZ => 1.2
  | .INTERNAL_ONLY => 1.0

/-- A parsed dotted-quad IPv4 address (`ipaddress.ip_address` for the v4
grammar: four decimal octets, each ≤ 255, no leading zeros). -/
def parseIPv4 (s : String) : Option (Nat × Nat × Nat × Nat) :=
  let parts := splitOnChar s '.'
  match parts with
  | [a, b, c, d] =>
    let octet (t : String) : Option Nat :=
      if t ≠ "" ∧ t.data.all Char.isDigit ∧ t.data.length ≤ 3 ∧
          (t.data.length = 1 ∨ t.data.head? ≠ some '0') then
        let v := t.data.foldl (fun acc ch => acc * 10 + (ch.toNat - 48)) 0
        if v ≤ 255 then some v else none
      else none
    match octet a, octet b, octet c, octet d with
    | some x, some y, some z, some w => some (x, y, z, w)
    | _, _, _, _ => none
  | _ => none

/-- `_is_internal_ip` against the default internal networks
`10.0.0.0/8`, `172.16.0.0/12`, `192.168.0.0/16` (non-IPv4 strings parse to
nothing, matching the swallowed `ValueError`). -/
def isInternalIp (ip : String) : Bool :=
  match parseIPv4 ip with
  | some (a, b, _, _) =>
    a = 10 || (a = 172 && (16 ≤ b && b ≤ 31)) || (a = 192 && b = 168)
  | none => false

/-- `_create_profile` (with `db_manager=None`: no device info, category
`UNKNOWN`). -/
def createProfile (ip : String) (now : ℚ) : AssetRiskProfile :=
  { ip_address := ip
    hostname := none
    mac_address := none
    device_type := none
    category := .UNKNOWN
    exposure := if isInternalIp ip then .INTERNAL_ONLY else .INTERNET_FACING
    current_risk_score := 0.0
    max_risk_score := 0.0
    risk_trend := "stable"
    total_alerts := 0
    alerts_24h := 0
    alerts_7d := 0
    alert_types := []
    is_attacker := false
    is_victim := false
    attack_chain_count := 0
    kill_chain_stage := none
    last_seen := now
    last_alert := none }

/-- `_get_time_weight`. -/
def getTimeWeight (ageSeconds : ℚ) : ℚ :=
  let hours := ageSeconds / 3600
  if hours < 1 then 1.0
  else if hours < 6 then 0.9
  else if hours < 24 then 0.7
  else if hours < 72 then 0.5
  else if hours < 168 then 0.3
  else 0.1

/-- The per-alert addend of `_calculate_risk_score`'s loop. -/
def alertTerm (now : ℚ) (r : AlertRecord) : ℚ :=
  let age := now - r.timestamp
  let time_weight := getTimeWeight age
  let type_weight := getDA ALERT_TYPE_WEIGHTS r.alert_type 5.0
  let severity_weight := getDA SEVERITY_WEIGHTS r.severity 1.0
  let role_weight : ℚ := if r.is_source then 1.5 else 1.0
  type_weight * severity_weight * time_weight * role_weight

/-- The fold over chains that computes the highest `max_stage`
(string comparison, as Python's `>` on `str`). -/
def maxStage (chains : List Chain) : Option String :=
  chains.foldl
    (fun acc c =>
      match c.max_stage with
      | none => acc
      | some s =>
        match acc with
        | none => some s
        | some m => if m < s then some s else acc)
    none

/-- The final `if` of `_calculate_risk_score`: track the running maximum. -/
def finishMax (p : AssetRiskProfile) : AssetRiskProfile :=
  if p.current_risk_score > p.max_risk_score then
    { p with max_risk_score := p.current_risk_score }
  else p

/-- The tail of `_calculate_risk_score` shared by the kill-chain branches:
update the 24h/7d alert counts, clamp the score to `[.., 100]` and track the
running maximum. -/
def finishProfile (p : AssetRiskProfile) (alerts : List AlertRecord)
    (now score : ℚ) : AssetRiskProfile :=
  finishMax { p with
    alerts_24h := (alerts.filter (fun r : AlertRecord =>
      decide (now - r.timestamp < 86400))).length
    alerts_7d := (alerts.filter (fun r : AlertRecord =>
      decide (now - r.timestamp < 604800))).length
    current_risk_score := min 100.0 score }

/-- `_calculate_risk_score` on one profile (reads the scorer's alert
history for the profile's IP and the kill-chain collaborator). -/
def calculateRiskScore (s : RiskScorer) (now : ℚ) (p : AssetRiskProfile) :
    AssetRiskProfile :=
  let alerts := getDA s.alert_history p.ip_address []
  let score := alerts.foldl (fun acc r => acc + alertTerm now r) 0.0
  let score := score * categoryMultiplier p.category
  let score := score * exposureMultiplier p.exposure
  match s.killChain with
  | none => finishProfile p alerts now score
  | some kc =>
    let chains := kc p.ip_address
    let p := { p with attack_chain_count := chains.length }
    if chains ≠ [] then
      finishProfile { p with kill_chain_stage := maxStage chains } alerts now
        (score * 1.3)
    else finishProfile p alerts now score

/-- `self.profiles[ip].risk_trend = t` (the profile exists whenever
`_update_trend` runs, since `_update_profile` created it; a missing key is
modelled as a no-op). -/
def setProfileTrend (s : RiskScorer) (ip t : String) : RiskScorer :=
  match lookupA s.profiles ip with
  | some p => { s with profiles := setA s.profiles ip { p with risk_trend := t } }
  | none => s

/-- `_update_trend`. -/
def updateTrend (s : RiskScorer) (ip : String) (current_score now : ℚ) :
    RiskScorer :=
  let hist := pushMax 100 (getDA s.score_history ip []) (now, current_score)
  let s := { s with score_history := setA s.score_history ip hist }
  if hist.length < 3 then setProfileTrend s ip "stable"
  else
    let recent := (hist.drop (hist.length - 5)).map Prod.snd
    let older := (hist.take (hist.length - 5)).map Prod.snd
    if older = [] then setProfileTrend s ip "stable"
    else
      let recent_avg := recent.sum / (recent.length : ℚ)
      let older_avg := older.sum / (older.length : ℚ)
      if recent_avg > older_avg * 1.2 then setProfileTrend s ip "increasing"
      else if recent_avg < older_avg * 0.8 then setProfileTrend s ip "decreasing"
      else setProfileTrend s ip "stable"

/-- `_update_profile`. -/
def updateProfile (s : RiskScorer) (ip : String) (rec : AlertRecord) :
    RiskScorer :=
  let current_time := rec.timestamp
  let p :=
    match lookupA s.profiles ip with
    | some p => p
    | none => createProfile ip current_time
  let hist := pushMax 1000 (getDA s.alert_history ip []) rec
  let s := { s with alert_history := setA s.alert_history ip hist }
  let p := { p with
    total_alerts := p.total_alerts + 1
    last_alert := some current_time
    last_seen := current_time
    alert_types := setA p.alert_types rec.alert_type
      (getDA p.alert_types rec.alert_type 0 + 1) }
  let p := if rec.is_source then { p with is_attacker := true }
           else { p with is_victim := true }
  let p := calculateRiskScore s current_time p
  let s := { s with profiles := setA s.profiles ip p }
  updateTrend s ip p.current_risk_score current_time

/-- An incoming alert dict: the fields read by
`RiskScorer.process_alert` (with the `.get` defaults applied). -/
structure RiskAlert where
  source_ip : String := ""
  destination_ip : String := ""
  typ : String := "UNKNOWN"
  severity : String := "MEDIUM"
  deriving DecidableEq, Repr

/-- `process_alert`, source-IP half (attacker role); `if source_ip:` is the
Python truthiness test on a string. -/
def processAlertSource (s : RiskScorer) (now : ℚ) (alert : RiskAlert) :
    RiskScorer :=
  if alert.source_ip ≠ "" then
    updateProfile s alert.source_ip
      { timestamp := now
        alert_type := alert.typ
        severity := alert.severity
        source_ip := alert.source_ip
        destination_ip := alert.destination_ip
        is_source := true }
  else s

/-- `process_alert`, destination-IP half (victim role). -/
def processAlertDest (s : RiskScorer) (now : ℚ) (alert : RiskAlert) :
    RiskScorer :=
  if alert.destination_ip ≠ "" ∧ alert.destination_ip ≠ alert.source_ip then
    updateProfile s alert.destination_ip
      { timestamp := now
        alert_type := alert.typ
        severity := alert.severity
        source_ip := alert.source_ip
        destination_ip := alert.destination_ip
        is_source := false }
  else s

/-- `process_alert`. -/
def processAlert (s : RiskScorer) (now : ℚ) (alert : RiskAlert) : RiskScorer :=
  if ¬s.enabled then s
  else processAlertDest (processAlertSource s now alert) now alert

/-- The clamped decay factor
`max(0.0, min(1.0, 1.0 - decay_rate * (idle / decay_interval)))`. -/
def decayFactor (rate interval la now : ℚ) : ℚ :=
  max 0.0 (min 1.0 (1.0 - rate * ((now - la) / interval)))

/-- `apply_decay`.  `if profile.last_alert and ...` is Python truthiness:
`None` and `0.0` are both falsy. -/
def applyDecay (s : RiskScorer) (now : ℚ) : RiskScorer :=
  { s with profiles := s.profiles.map (fun (ip, p) =>
      match p.last_alert with
      | some la =>
        if la ≠ 0 ∧ now - la > s.decay_interval then
          (ip, { p with current_risk_score :=
            p.current_risk_score * decayFactor s.decay_rate s.decay_interval la now })
        else (ip, p)
      | none => (ip, p)) }

/-- One externally driven `RiskScorer` operation. -/
inductive RiskOp : Type
  | alert (now : ℚ) (a : RiskAlert)
  | decay (now : ℚ)

/-- Run one operation. -/
def runOp (s : RiskScorer) : RiskOp → RiskScorer
  | .alert now a => processAlert s now a
  | .decay now => applyDecay s now

/-- Run a sequence of operations. -/
def runOps (s : RiskScorer) (ops : List RiskOp) : RiskScorer :=
  ops.foldl runOp s

/-- All profile scores lie in `[0, 100]`. -/
def ScoresInRange (s : RiskScorer) : Prop :=
  ∀ pr ∈ s.profiles, 0 ≤ pr.2.current_risk_score ∧ pr.2.current_risk_score ≤ 100

end RiskScoring

end NetMon

namespace NetMon

namespace RiskScoring

/-! ### Supporting lemmas for the score-range invariant -/

theorem lookupA_mem {α : Type} {l : List (String × α)} {k : String} {v : α}
    (h : lookupA l k = some v) : (k, v) ∈ l := by
  induction l with
  | nil => simp [lookupA] at h
  | cons hd tl ih =>
    obtain ⟨k', v'⟩ := hd
    by_cases hk : k' = k
    · simp [lookupA, hk] at h
      simp [hk, h]
    · simp [lookupA, hk] at h
      exact List.mem_cons_of_mem _ (ih h)

theorem getDA_nonneg (l : List (String × ℚ)) (k : String) (d : ℚ)
    (hl : ∀ p ∈ l, 0 ≤ p.2) (hd : 0 ≤ d) : 0 ≤ getDA l k d := by
  unfold getDA
  cases hv : lookupA l k with
  | none => simpa using hd
  | some v =>
    have := hl _ (lookupA_mem hv)
    simpa using this

theorem severity_weight_nonneg (k : String) : 0 ≤ getDA SEVERITY_WEIGHTS k 1.0 := by
  refine getDA_nonneg _ _ _ ?_ (by norm_num)
  intro p hp
  fin_cases hp <;> norm_num

theorem type_weight_nonneg (k : String) : 0 ≤ getDA ALERT_TYPE_WEIGHTS k 5.0 := by
  refine getDA_nonneg _ _ _ ?_ (by norm_num)
  intro p hp
  fin_cases hp <;> norm_num

theorem time_weight_nonneg (a : ℚ) : 0 ≤ getTimeWeight a := by
  simp only [getTimeWeight]
  split_ifs <;> norm_num

theorem alertTerm_nonneg (now : ℚ) (r : AlertRecord) : 0 ≤ alertTerm now r := by
  unfold alertTerm
  have h1 := type_weight_nonneg r.alert_type
  have h2 := severity_weight_nonneg r.severity
  have h3 := time_weight_nonneg (now - r.timestamp)
  have h4 : (0:ℚ) ≤ if r.is_source then 1.5 else 1.0 := by split <;> norm_num
  exact mul_nonneg (mul_nonneg (mul_nonneg h1 h2) h3) h4

theorem foldl_add_nonneg (now : ℚ) (l : List AlertRecord) (acc : ℚ)
    (hacc : 0 ≤ acc) : 0 ≤ l.foldl (fun a r => a + alertTerm now r) acc := by
  induction l generalizing acc with
  | nil => simpa using hacc
  | cons hd tl ih =>
    exact ih _ (add_nonneg hacc (alertTerm_nonneg now hd))

theorem categoryMultiplier_nonneg (c : AssetCategory) : 0 ≤ categoryMultiplier c := by
  cases c <;> norm_num [categoryMultiplier]

theorem exposureMultiplier_nonneg (e : ExposureLevel) : 0 ≤ exposureMultiplier e := by
  cases e <;> norm_num [exposureMultiplier]

theorem finishMax_score (p : AssetRiskProfile) :
    (finishMax p).current_risk_score = p.current_risk_score := by
  unfold finishMax
  split <;> rfl

theorem finishProfile_score (p : AssetRiskProfile) (alerts : List AlertRecord)
    (now score : ℚ) :
    (finishProfile p alerts now score).current_risk_score = min 100.0 score := by
  rw [finishProfile, finishMax_score]

theorem finishProfile_range (p : AssetRiskProfile) (alerts : List AlertRecord)
    (now score : ℚ) (h : 0 ≤ score) :
    0 ≤ (finishProfile p alerts now score).current_risk_score ∧
      (finishProfile p alerts now score).current_risk_score ≤ 100 := by
  rw [finishProfile_score]
  exact ⟨le_min (by norm_num) h, le_trans (min_le_left _ _) (by norm_num)⟩

/-- `_calculate_risk_score` always lands in `[0, 100]`: the summed terms and
all multipliers are nonnegative and the result is clamped by `min 100`. -/
theorem calculateRiskScore_range (s : RiskScorer) (now : ℚ) (p : AssetRiskProfile) :
    0 ≤ (calculateRiskScore s now p).current_risk_score ∧
      (calculateRiskScore s now p).current_risk_score ≤ 100 := by
  unfold calculateRiskScore
  have h0 : 0 ≤ (getDA s.alert_history p.ip_address []).foldl
      (fun acc r => acc + alertTerm now r) 0.0 :=
    foldl_add_nonneg now _ 0.0 (by norm_num)
  have h2 : 0 ≤ (getDA s.alert_history p.ip_address []).foldl
        (fun acc r => acc + alertTerm now r) 0.0 * categoryMultiplier p.category *
        exposureMultiplier p.exposure :=
    mul_nonneg (mul_nonneg h0 (categoryMultiplier_nonneg _))
      (exposureMultiplier_nonneg _)
  cases s.killChain with
  | none => exact finishProfile_range _ _ _ _ h2
  | some kc =>
    by_cases hc : kc p.ip_address ≠ []
    · simp only [if_pos hc]
      exact finishProfile_range _ _ _ _ (mul_nonneg h2 (by norm_num))
    · simp only [if_neg hc]
      exact finishProfile_range _ _ _ _ h2

theorem setA_pres {α : Type} (P : α → Prop) (l : List (String × α)) (k : String)
    (v : α) (hl : ∀ p ∈ l, P p.2) (hv : P v) :
    ∀ p ∈ setA l k v, P p.2 := by
  induction l with
  | nil =>
    intro p hp
    simp [setA] at hp
    simp [hp, hv]
  | cons hd tl ih =>
    obtain ⟨k', v'⟩ := hd
    intro p hp
    by_cases hk : k' = k
    · simp [setA, hk] at hp
      rcases hp with hp | hp
      · simp [hp, hv]
      · exact hl p (List.mem_cons_of_mem _ hp)
    · simp only [setA, if_neg hk, List.mem_cons] at hp
      rcases hp with hp | hp
      · exact hl p (by simp [hp])
      · exact ih (fun q hq => hl q (List.mem_cons_of_mem _ hq)) p hp

theorem setProfileTrend_pres (s : RiskScorer) (ip t : String)
    (h : ScoresInRange s) : ScoresInRange (setProfileTrend s ip t) := by
  unfold setProfileTrend
  cases hv : lookupA s.profiles ip with
  | none => exact h
  | some p =>
    have hp := h _ (lookupA_mem hv)
    intro pr hpr
    simp only at hpr
    exact setA_pres
      (fun q : AssetRiskProfile => 0 ≤ q.current_risk_score ∧ q.current_risk_score ≤ 100)
      s.profiles ip { p with risk_trend := t } h hp pr hpr

theorem updateTrend_pres (s : RiskScorer) (ip : String) (cs now : ℚ)
    (h : ScoresInRange s) : ScoresInRange (updateTrend s ip cs now) := by
  unfold updateTrend
  dsimp only
  split
  · exact setProfileTrend_pres _ _ _ h
  · split
    · exact setProfileTrend_pres _ _ _ h
    · split
      · exact setProfileTrend_pres _ _ _ h
      · split
        · exact setProfileTrend_pres _ _ _ h
        · exact setProfileTrend_pres _ _ _ h

theorem updateProfile_pres (s : RiskScorer) (ip : String) (rec : AlertRecord)
    (h : ScoresInRange s) : ScoresInRange (updateProfile s ip rec) := by
  unfold updateProfile
  dsimp only
  apply updateTrend_pres
  intro pr hpr
  refine setA_pres
    (fun q : AssetRiskProfile => 0 ≤ q.current_risk_score ∧ q.current_risk_score ≤ 100)
    _ _ _ (fun q hq => h q hq) ?_ pr hpr
  exact calculateRiskScore_range _ _ _

theorem processAlert_pres (s : RiskScorer) (now : ℚ) (a : RiskAlert)
    (h : ScoresInRange s) : ScoresInRange (processAlert s now a) := by
  have hsrc : ScoresInRange (processAlertSource s now a) := by
    unfold processAlertSource
    split
    · exact updateProfile_pres _ _ _ h
    · exact h
  unfold processAlert
  split
  · exact h
  · unfold processAlertDest
    split
    · exact updateProfile_pres _ _ _ hsrc
    · exact hsrc

theorem decayFactor_nonneg (rate interval la now : ℚ) :
    0 ≤ decayFactor rate interval la now := by
  unfold decayFactor
  exact le_trans (by norm_num) (le_max_left (0.0 : ℚ) _)

theorem decayFactor_le_one (rate interval la now : ℚ) :
    decayFactor rate interval la now ≤ 1 := by
  unfold decayFactor
  exact max_le (by norm_num) (le_trans (min_le_left _ _) (by norm_num))

theorem applyDecay_pres (s : RiskScorer) (now : ℚ)
    (h : ScoresInRange s) : ScoresInRange (applyDecay s now) := by
  unfold applyDecay
  intro pr hpr
  simp only [List.mem_map] at hpr
  obtain ⟨⟨ip, p⟩, hmem, heq⟩ := hpr
  have hp := h _ hmem
  cases hla : p.last_alert with
  | none =>
    simp only [hla] at heq
    exact heq ▸ hp
  | some la =>
    simp only [hla] at heq
    by_cases hc : la ≠ 0 ∧ now - la > s.decay_interval
    · rw [if_pos hc] at heq
      subst heq
      have hf0 := decayFactor_nonneg s.decay_rate s.decay_interval la now
      have hf1 := decayFactor_le_one s.decay_rate s.decay_interval la now
      constructor
      · exact mul_nonneg hp.1 hf0
      · calc p.current_risk_score * decayFactor s.decay_rate s.decay_interval la now
            ≤ p.current_risk_score * 1 := mul_le_mul_of_nonneg_left hf1 hp.1
          _ = p.current_risk_score := mul_one _
          _ ≤ 100 := hp.2
    · rw [if_neg hc] at heq
      exact heq ▸ hp

theorem runOp_pres (s : RiskScorer) (op : RiskOp)
    (h : ScoresInRange s) : ScoresInRange (runOp s op) := by
  cases op with
  | alert now a => exact processAlert_pres s now a h
  | decay now => exact applyDecay_pres s now h

end RiskScoring

end NetMon

namespace NetMon

namespace RiskScoring

/-- Claim C2: for every starting `RiskScorer` whose profiles all have scores
in `[0, 100]` (in particular a fresh scorer, which has none) and every
sequence of operations (`process_alert` and `apply_decay` calls), every
profile's `current_risk_score` remains within `[0, 100]` after the sequence —
and hence after each operation, since the sequence is arbitrary. -/
theorem risk_scores_stay_in_range (s : RiskScorer) (h : ScoresInRange s)
    (ops : List RiskOp) : ScoresInRange (runOps s ops) := by
  induction ops generalizing s with
  | nil => exact h
  | cons op tl ih => exact ih _ (runOp_pres s op h)

/-- Witness for C2: a fresh scorer fed one critical alert and one decay pass
(the decay 2 hours later, past the default decay interval). -/
theorem risk_scores_stay_in_range_witness :
    ScoresInRange (runOps (initScorer none)
      [.alert 1000 { source_ip := "10.0.0.8", destination_ip := "10.0.0.9",
                     typ := "RANSOMWARE_DETECTED", severity := "CRITICAL" },
       .decay 8300]) :=
  risk_scores_stay_in_range (initScorer none)
    (fun pr h => absurd h (List.not_mem_nil pr)) _

/-- The single critical ransomware alert of claim C9. -/
def c9alert : RiskAlert :=
  { source_ip := "10.1.2.3"
    destination_ip := "10.1.2.4"
    typ := "RANSOMWARE_DETECTED"
    severity := "CRITICAL" }

/-- Claim C9: one CRITICAL `RANSOMWARE_DETECTED` alert through a fresh
`RiskScorer` (no kill-chain collaborator; the alert is scored at its own
timestamp, so its age is `0 < 1h`) gives the source IP — category UNKNOWN,
exposure INTERNAL_ONLY (a 10.0.0.0/8 address), attacker role — a
`current_risk_score` of `min(100, 25.0·15.0·1.0·1.5·1.0·1.0)`, i.e. the
product 562.5 clamped to 100. -/
theorem ransomware_alert_scores_100 :
    (lookupA (processAlert (initScorer none) 1000 c9alert).profiles "10.1.2.3").map
      (fun p => (p.category, p.exposure, p.is_attacker, p.current_risk_score)) =
    some (AssetCategory.UNKNOWN, ExposureLevel.INTERNAL_ONLY, true,
      min 100 (25 * 15 * 1 * 1.5 * 1 * 1)) ∧
    min (100 : ℚ) (25 * 15 * 1 * 1.5 * 1 * 1) = 100 := by
  with_unfolding_all decide

end RiskScoring

end NetMon

namespace NetMon

namespace SOAR

/-! ## Embedding of `soar.py` -/

/-- `ResponseAction` (Enum). -/
inductive ResponseAction : Type
  | LOG | ALERT | NOTIFY | ENRICH | QUARANTINE | BLOCK_IP
  | BLOCK_DOMAIN | RATE_LIMIT | CAPTURE | SCRIPT
  deriving DecidableEq, Repr

/-- `ResponseAction.value`. -/
def ResponseAction.value : ResponseAction → String
  | .LOG => "log"
  | .ALERT => "alert"
  | .NOTIFY => "notify"
  | .ENRICH => "enrich"
  | .QUARANTINE => "quarantine"
  | .BLOCK_IP => "block_ip"
  | .BLOCK_DOMAIN => "block_domain"
  | .RATE_LIMIT => "rate_limit"
  | .CAPTURE => "capture"
  | .SCRIPT => "script"

/-- `PlaybookStatus` (Enum). -/
inductive PlaybookStatus : Type
  | PENDING | RUNNING | COMPLETED | FAILED | SKIPPED
  deriving DecidableEq, Repr

/-- The step-parameter dict: every key any `_action_*` reads, with absence as
`none` (the `.get` defaults are applied at the read sites, as in the source). -/
structure StepParams where
  direction : Option String := none
  duration : Option ℚ := none
  limit : Option String := none
  level : Option String := none
  channels : Option (List String) := none
  priority : Option String := none
  include_geoip : Bool := false
  include_whois : Bool := false
  include_device_info : Bool := false
  include_ad_info : Bool := false
  escalate : Bool := false
  script : Option String := none
  deriving DecidableEq, Repr

/-- `PlaybookStep` (dataclass). -/
structure PlaybookStep where
  action : ResponseAction
  parameters : StepParams := {}
  condition : Option String := none
  timeout : Nat := 60
  on_failure : String := "continue"
  deriving DecidableEq, Repr

/-- `Playbook` (dataclass). -/
structure Playbook where
  name : String
  description : String
  trigger_types : List String
  trigger_severities : List String
  steps : List PlaybookStep
  enabled : Bool := true
  cooldown : ℚ := 300
  max_executions_per_hour : Nat := 10
  deriving DecidableEq, Repr

/-- The alert-dict fields the SOAR engine reads. -/
structure Alert where
  typ : String := ""
  severity : String := ""
  source_ip : String := ""
  destination_ip : String := ""
  deriving DecidableEq, Repr

/-- Device record returned by the database collaborator. -/
structure DeviceInfo where
  hostname : Option String := none
  mac_address : Option String := none
  vendor : Option String := none
  deriving DecidableEq, Repr

/-- The enrichment dict built by `_action_enrich`.  `_get_geoip` is a
placeholder in the source that always returns `None`. -/
structure Enrichment where
  has_geoip : Bool := false
  source_device : Option DeviceInfo := none
  deriving DecidableEq, Repr

/-- Union of the `details` dicts returned by the `_action_*` handlers;
unset keys are `none`/defaults. -/
structure StepDetails where
  message : Option String := none
  logged : Option Bool := none
  level : Option String := none
  enrichment : Option Enrichment := none
  sent : Option (List String) := none
  started : Option Bool := none
  dry_run : Option Bool := none
  duration : Option ℚ := none
  blocked : Option Bool := none
  error : Option String := none
  ip : Option String := none
  direction : Option String := none
  applied : Option Bool := none
  limit : Option String := none
  executed : Option Bool := none
  return_code : Option Int := none
  stdout : Option String := none
  deriving DecidableEq, Repr

/-- A step result dict as built by `_execute_step`. -/
structure StepResult where
  action : String
  success : Bool
  timestamp : ℚ
  dry_run : Bool
  details : StepDetails := {}
  error : Option String := none
  deriving DecidableEq, Repr

/-- `PlaybookExecution` (dataclass). -/
structure PlaybookExecution where
  execution_id : String
  playbook_name : String
  trigger_alert : Alert
  status : PlaybookStatus
  started_at : ℚ
  completed_at : Option ℚ
  steps_completed : Nat
  steps_total : Nat
  results : List StepResult
  error : Option String := none
  deriving DecidableEq, Repr

/-- A `process_alert` response entry. -/
structure Response where
  playbook : String
  execution_id : String
  status : String
  deriving DecidableEq, Repr

/-- External collaborators of the engine: the webhook endpoint
(`requests.post`; `false` also covers a raised-and-caught exception) and the
`subprocess.run` of the script action (`Except` for a caught exception). -/
structure SoarEnv where
  webhook_post_ok : Alert → ℚ → Bool
  script_run : String → Alert → Except String (Int × String)

/-- The mutable state of `SOAREngine` plus its configuration.

`next_exec_id` models `str(uuid.uuid4())[:8]`: the source draws a fresh
random id per execution; the model draws from a counter (only freshness is
observable).  `cooldowns` is used by the source as a flat
`key -> timestamp` dict (despite its nested type annotation).
`blocks_this_hour` starts as a `deque(maxlen=100)` but `_action_block_ip`
replaces it with an unbounded deque before ever appending, so a plain list
is exact. -/
structure SOAREngine where
  enabled : Bool := true
  dry_run : Bool := true
  require_approval : Bool := true
  max_blocks_per_hour : Nat := 10
  webhook_url : Option String := none
  email_enabled : Bool := false
  db : Option (String → Option DeviceInfo) := none
  playbooks : List (String × Playbook) := []
  executions : List PlaybookExecution := []
  pending_approvals : List (String × (PlaybookExecution × Playbook)) := []
  execution_queue : List (PlaybookExecution × Playbook) := []
  cooldowns : List (String × ℚ) := []
  blocks_this_hour : List ℚ := []
  next_exec_id : Nat := 0

/-- `_load_default_playbooks`. -/
def defaultPlaybooks : List (String × Playbook) :=
  [("critical_threat",
    { name := "critical_threat"
      description := "Response to critical severity threats"
      trigger_types := ["C2_COMMUNICATION", "RANSOMWARE_DETECTED", "DCSYNC_ATTACK",
                        "HIGH_RISK_ATTACK_CHAIN", "MALICIOUS_JA3_FINGERPRINT"]
      trigger_severities := ["CRITICAL"]
      steps := [
        { action := .ENRICH, parameters := { include_geoip := true, include_whois := true } },
        { action := .CAPTURE, parameters := { duration := some 300 } },
        { action := .NOTIFY, parameters := { priority := some "high",
                                             channels := some ["webhook", "email"] } },
        { action := .BLOCK_IP, parameters := { direction := some "both",
                                               duration := some 3600 } }]
      cooldown := 300 }),
   ("lateral_movement",
    { name := "lateral_movement"
      description := "Response to lateral movement detection"
      trigger_types := ["LATERAL_MOVEMENT", "PASS_THE_HASH_SUSPECTED",
                        "SMB_LATERAL_MOVEMENT_PATTERN", "ATTACK_CHAIN_PROGRESSION"]
      trigger_severities := ["HIGH", "CRITICAL"]
      steps := [
        { action := .ENRICH, parameters := { include_device_info := true } },
        { action := .NOTIFY, parameters := { priority := some "high" } },
        { action := .RATE_LIMIT, parameters := { limit := some "10/minute" } }]
      cooldown := 600 }),
   ("credential_theft",
    { name := "credential_theft"
      description := "Response to credential theft attempts"
      trigger_types := ["KERBEROASTING_ATTACK", "ASREP_ROASTING_ATTACK",
                        "NTDS_DIT_ACCESS", "LSASS_DUMP_ACCESS"]
      trigger_severities := ["CRITICAL", "HIGH"]
      steps := [
        { action := .ENRICH, parameters := { include_ad_info := true } },
        { action := .CAPTURE, parameters := { duration := some 600 } },
        { action := .NOTIFY, parameters := { priority := some "critical",
                                             escalate := true } }]
      cooldown := 300 }),
   ("reconnaissance",
    { name := "reconnaissance"
      description := "Response to reconnaissance activity"
      trigger_types := ["PORT_SCAN", "INTERNAL_PORT_SCAN", "SMB_ENUMERATION",
                        "LDAP_ENUMERATION", "LDAP_SPN_ENUMERATION"]
      trigger_severities := ["MEDIUM", "HIGH"]
      steps := [
        { action := .ENRICH, parameters := { include_geoip := true } },
        { action := .LOG, parameters := { level := some "info" } },
        { action := .NOTIFY, parameters := { priority := some "normal" } }]
      cooldown := 1800 }),
   ("brute_force",
    { name := "brute_force"
      description := "Response to brute force attacks"
      trigger_types := ["BRUTE_FORCE", "KERBEROS_BRUTEFORCE", "SSH_BRUTEFORCE"]
      trigger_severities := ["HIGH"]
      steps := [
        { action := .ENRICH, parameters := { include_geoip := true } },
        { action := .RATE_LIMIT, parameters := { limit := some "3/minute",
                                                 duration := some 3600 } },
        { action := .NOTIFY, parameters := { priority := some "high" } }]
      cooldown := 600 })]

/-- `SOAREngine.__init__` with default config except the given safety
switches. -/
def initEngine (dry_run require_approval : Bool := true) : SOAREngine :=
  { dry_run := dry_run
    require_approval := require_approval
    playbooks := defaultPlaybooks }

/-- `_find_matching_playbooks`. -/
def findMatchingPlaybooks (s : SOAREngine) (alert_type severity : String) :
    List Playbook :=
  (s.playbooks.map Prod.snd).filter (fun pb =>
    pb.enabled &&
    (pb.trigger_types.contains alert_type || pb.trigger_types.contains "*") &&
    (pb.trigger_severities.contains severity || pb.trigger_severities.contains "*"))

/-- The cooldown key `f"{ip}:{playbook_name}"`. -/
def ckey (ip name : String) : String := ip ++ ":" ++ name

/-- `_in_cooldown`: `time.time() - self.cooldowns.get(key, 0) < cooldown`. -/
def inCooldown (s : SOAREngine) (now : ℚ) (ip name : String) (cooldown : ℚ) :
    Bool :=
  now - getDA s.cooldowns (ckey ip name) 0 < cooldown

/-- `_queue_execution`. -/
def queueExecution (s : SOAREngine) (now : ℚ) (pb : Playbook) (alert : Alert) :
    SOAREngine × PlaybookExecution :=
  let execution : PlaybookExecution :=
    { execution_id := natStr s.next_exec_id
      playbook_name := pb.name
      trigger_alert := alert
      status := .PENDING
      started_at := now
      completed_at := none
      steps_completed := 0
      steps_total := pb.steps.length
      results := [] }
  let s := { s with next_exec_id := s.next_exec_id + 1 }
  if s.require_approval then
    ({ s with pending_approvals :=
                setA s.pending_approvals execution.execution_id (execution, pb) },
     execution)
  else
    ({ s with execution_queue := s.execution_queue ++ [(execution, pb)] },
     execution)

/-- The loop body of `process_alert` over the matching playbooks. -/
def processAlertLoop (now : ℚ) (alert : Alert) :
    List Playbook → SOAREngine × List Response → SOAREngine × List Response
  | [], acc => acc
  | pb :: rest, (s, responses) =>
    if inCooldown s now alert.source_ip pb.name pb.cooldown then
      processAlertLoop now alert rest (s, responses)
    else
      let (s, execution) := queueExecution s now pb alert
      processAlertLoop now alert rest
        (s, responses ++ [{ playbook := pb.name
                            execution_id := execution.execution_id
                            status := if s.require_approval then "queued"
                                      else "executing" }])

/-- `process_alert`. -/
def processAlert (s : SOAREngine) (now : ℚ) (alert : Alert) :
    SOAREngine × List Response :=
  if ¬s.enabled then (s, [])
  else
    processAlertLoop now alert
      (findMatchingPlaybooks s alert.typ alert.severity) (s, [])

/-- `approve_execution`. -/
def approveExecution (s : SOAREngine) (execution_id : String) :
    SOAREngine × Bool :=
  match lookupA s.pending_approvals execution_id with
  | none => (s, false)
  | some (execution, pb) =>
    ({ s with pending_approvals := removeA s.pending_approvals execution_id,
              execution_queue := s.execution_queue ++ [(execution, pb)] },
     true)

/-- `reject_execution`. -/
def rejectExecution (s : SOAREngine) (execution_id : String) :
    SOAREngine × Bool :=
  match lookupA s.pending_approvals execution_id with
  | none => (s, false)
  | some (execution, _) =>
    ({ s with pending_approvals := removeA s.pending_approvals execution_id,
              executions := pushMax 1000 s.executions
                { execution with status := .SKIPPED } },
     true)

end SOAR

end NetMon

namespace NetMon

namespace SOAR

/-- `_action_log`. -/
def actionLog (params : StepParams) : StepDetails :=
  { logged := some true, level := some (params.level.getD "info") }

/-- `_get_geoip`: a placeholder in the source, always `None`. -/
def getGeoip (_ip : String) : Option DeviceInfo := none

/-- `_action_enrich` (the inner `try/except: pass` blocks guard only the
collaborator calls, whose outcome the `db` function models directly). -/
def actionEnrich (s : SOAREngine) (alert : Alert) (params : StepParams) :
    StepDetails :=
  let e : Enrichment := {}
  let e := if params.include_geoip ∧ s.db.isSome then
      { e with has_geoip := true } else e
  let e :=
    match s.db with
    | some db =>
      if params.include_device_info then
        { e with source_device := db alert.source_ip }
      else e
    | none => e
  { enrichment := some e }

/-- `_send_webhook`. -/
def sendWebhook (env : SoarEnv) (s : SOAREngine) (now : ℚ) (alert : Alert) :
    Bool :=
  if s.dry_run then true
  else env.webhook_post_ok alert now

/-- `_send_email`. -/
def sendEmail (s : SOAREngine) : Bool :=
  if s.dry_run then true
  else false

/-- `_action_notify`. -/
def actionNotify (env : SoarEnv) (s : SOAREngine) (now : ℚ) (alert : Alert)
    (params : StepParams) : StepDetails :=
  let channels := params.channels.getD ["webhook"]
  let sent : List String := []
  let sent :=
    if channels.contains "webhook" ∧ s.webhook_url.isSome then
      if sendWebhook env s now alert then sent ++ ["webhook"] else sent
    else sent
  let sent :=
    if channels.contains "email" ∧ s.email_enabled then
      if sendEmail s then sent ++ ["email"] else sent
    else sent
  { sent := some sent }

/-- `_action_capture`. -/
def actionCapture (s : SOAREngine) (params : StepParams) : StepDetails :=
  let duration := params.duration.getD 60
  if s.dry_run then { started := some false, dry_run := some true }
  else { started := some true, duration := some duration }

/-- `_action_block_ip`: rebuilds the hourly window, then enforces the cap
(before and regardless of dry-run), then blocks or dry-runs. -/
def actionBlockIp (s : SOAREngine) (now : ℚ) (alert : Alert)
    (params : StepParams) : SOAREngine × StepDetails :=
  let source_ip := alert.source_ip
  let direction := params.direction.getD "both"
  let duration := params.duration.getD 3600
  let kept := s.blocks_this_hour.filter (fun t => decide (now - t < 3600))
  let s := { s with blocks_this_hour := kept }
  if kept.length ≥ s.max_blocks_per_hour then
    (s, { blocked := some false, error := some "Max blocks per hour exceeded" })
  else if s.dry_run then
    (s, { blocked := some false, dry_run := some true, ip := some source_ip })
  else
    ({ s with blocks_this_hour := kept ++ [now] },
     { blocked := some true, ip := some source_ip,
       direction := some direction, duration := some duration })

/-- `_action_rate_limit`. -/
def actionRateLimit (s : SOAREngine) (alert : Alert) (params : StepParams) :
    StepDetails :=
  let limit := params.limit.getD "10/minute"
  let duration := params.duration.getD 3600
  if s.dry_run then { applied := some false, dry_run := some true }
  else { applied := some true, ip := some alert.source_ip,
         limit := some limit, duration := some duration }

/-- `_action_script` (`subprocess.run` outcome from the environment; its
exception is caught in the source and surfaced as `executed: False`). -/
def actionScript (env : SoarEnv) (s : SOAREngine) (alert : Alert)
    (params : StepParams) : StepDetails :=
  match params.script with
  | none => { executed := some false, error := some "No script specified" }
  | some path =>
    if s.dry_run then { executed := some false, dry_run := some true }
    else
      match env.script_run path alert with
      | .ok (returncode, out) =>
        { executed := some true, return_code := some returncode,
          stdout := some (strSlice out 0 500) }
      | .error e => { executed := some false, error := some e }

/-- `_execute_step`.  Every `_action_*` body already catches its fallible
collaborator calls, so the surrounding `except` (which would set
`success: False`) is unreachable and `success` stays `True`. -/
def executeStep (env : SoarEnv) (s : SOAREngine) (now : ℚ)
    (step : PlaybookStep) (alert : Alert) : SOAREngine × StepResult :=
  let base : StepResult :=
    { action := step.action.value
      success := true
      timestamp := now
      dry_run := s.dry_run }
  match step.action with
  | .LOG => (s, { base with details := actionLog step.parameters })
  | .ENRICH => (s, { base with details := actionEnrich s alert step.parameters })
  | .NOTIFY => (s, { base with details := actionNotify env s now alert step.parameters })
  | .CAPTURE => (s, { base with details := actionCapture s step.parameters })
  | .BLOCK_IP =>
    let (s, d) := actionBlockIp s now alert step.parameters
    (s, { base with details := d })
  | .RATE_LIMIT => (s, { base with details := actionRateLimit s alert step.parameters })
  | .SCRIPT => (s, { base with details := actionScript env s alert step.parameters })
  | a => (s, { base with details :=
      { message := some ("Action " ++ a.value ++ " not implemented") } })

/-- The step loop of `_execute_playbook` (index `i` is `steps_completed`). -/
def runSteps (env : SoarEnv) (now : ℚ) (alert : Alert) :
    List PlaybookStep → Nat → SOAREngine × PlaybookExecution →
    SOAREngine × PlaybookExecution
  | [], _, acc => acc
  | step :: rest, i, (s, e) =>
    let (s, step_result) := executeStep env s now step alert
    let e := { e with results := e.results ++ [step_result]
                      steps_completed := i + 1 }
    if ¬step_result.success ∧ step.on_failure = "abort" then
      (s, { e with status := .FAILED, error := step_result.error })
    else
      runSteps env now alert rest (i + 1) (s, e)

/-- `_execute_playbook`.  The `try` around the loop is unreachable since
`_execute_step` is total; the completion time reuses the worker's clock. -/
def executePlaybook (env : SoarEnv) (s : SOAREngine) (now : ℚ)
    (execution : PlaybookExecution) (pb : Playbook) : SOAREngine :=
  let execution := { execution with status := PlaybookStatus.RUNNING }
  let key := ckey execution.trigger_alert.source_ip pb.name
  let s := { s with cooldowns := setA s.cooldowns key now }
  let (s, execution) := runSteps env now execution.trigger_alert pb.steps 0 (s, execution)
  let execution :=
    if execution.status = .RUNNING then { execution with status := .COMPLETED }
    else execution
  let execution := { execution with completed_at := some now }
  { s with executions := pushMax 1000 s.executions execution }

/-- One pull of the worker loop: take the queue head and run it
(`execution_queue.get` + `_execute_playbook`); empty queue is the
`except: continue` path. -/
def workerStep (env : SoarEnv) (s : SOAREngine) (now : ℚ) : SOAREngine :=
  match s.execution_queue with
  | [] => s
  | (execution, pb) :: rest =>
    executePlaybook env { s with execution_queue := rest } now execution pb

/-- One externally driven engine operation. -/
inductive SoarOp : Type
  | alertOp (now : ℚ) (a : Alert)
  | workerOp (now : ℚ)
  | approveOp (id : String)
  | rejectOp (id : String)

/-- Run one operation (discarding the returned values). -/
def soarStep (env : SoarEnv) (s : SOAREngine) : SoarOp → SOAREngine
  | .alertOp now a => (processAlert s now a).1
  | .workerOp now => workerStep env s now
  | .approveOp id => (approveExecution s id).1
  | .rejectOp id => (rejectExecution s id).1

/-- Run a sequence of operations. -/
def soarRun (env : SoarEnv) (s : SOAREngine) (ops : List SoarOp) : SOAREngine :=
  ops.foldl (soarStep env) s

end SOAR

end NetMon

namespace NetMon

namespace SOAR

/-! ### Supporting lemmas: what touches the cooldown table -/

theorem queueExecution_cooldowns (s : SOAREngine) (now : ℚ) (pb : Playbook)
    (a : Alert) : (queueExecution s now pb a).1.cooldowns = s.cooldowns := by
  unfold queueExecution
  dsimp only
  split <;> rfl

theorem inCooldown_congr (s1 s2 : SOAREngine) (now : ℚ) (ip name : String)
    (cd : ℚ) (h : s1.cooldowns = s2.cooldowns) :
    inCooldown s1 now ip name cd = inCooldown s2 now ip name cd := by
  unfold inCooldown
  rw [h]

theorem processAlertLoop_cooldowns (now : ℚ) (a : Alert) (pbs : List Playbook)
    (s : SOAREngine) (rs : List Response) :
    (processAlertLoop now a pbs (s, rs)).1.cooldowns = s.cooldowns := by
  induction pbs generalizing s rs with
  | nil => rfl
  | cons pb rest ih =>
    unfold processAlertLoop
    dsimp only
    split
    · exact ih s rs
    · rw [ih]
      exact queueExecution_cooldowns s now pb a

/-- Which playbooks get a fresh execution from one alert: exactly the
matching ones whose `(source IP, playbook)` pairing is out of cooldown. -/
theorem processAlertLoop_names (now : ℚ) (a : Alert) (pbs : List Playbook)
    (s : SOAREngine) (rs : List Response) :
    ((processAlertLoop now a pbs (s, rs)).2).map Response.playbook =
      rs.map Response.playbook ++
      (pbs.filter (fun pb =>
        !inCooldown s now a.source_ip pb.name pb.cooldown)).map Playbook.name := by
  induction pbs generalizing s rs with
  | nil => simp [processAlertLoop]
  | cons pb rest ih =>
    unfold processAlertLoop
    dsimp only
    by_cases hc : inCooldown s now a.source_ip pb.name pb.cooldown = true
    · rw [if_pos hc, ih, List.filter_cons]
      simp [hc]
    · rw [if_neg hc, ih, List.filter_cons]
      have hcd := queueExecution_cooldowns s now pb a
      rw [List.filter_congr (fun q _ => by
        rw [inCooldown_congr _ _ now a.source_ip q.name q.cooldown hcd])]
      simp [hc]

set_option linter.unnecessarySeqFocus false in
theorem executeStep_cooldowns (env : SoarEnv) (s : SOAREngine) (now : ℚ)
    (step : PlaybookStep) (a : Alert) :
    (executeStep env s now step a).1.cooldowns = s.cooldowns := by
  unfold executeStep
  cases step.action <;> dsimp only <;> try rfl
  unfold actionBlockIp
  dsimp only
  split
  · rfl
  · split <;> rfl

theorem runSteps_cooldowns (env : SoarEnv) (now : ℚ) (a : Alert)
    (steps : List PlaybookStep) (i : Nat) (s : SOAREngine)
    (e : PlaybookExecution) :
    (runSteps env now a steps i (s, e)).1.cooldowns = s.cooldowns := by
  induction steps generalizing i s e with
  | nil => rfl
  | cons step rest ih =>
    unfold runSteps
    dsimp only
    split
    · exact executeStep_cooldowns env s now step a
    · rw [ih]
      exact executeStep_cooldowns env s now step a

end SOAR

end NetMon

namespace NetMon

namespace SOAR

theorem processAlert_names (s : SOAREngine) (now : ℚ) (a : Alert) :
    ((processAlert s now a).2).map Response.playbook =
      if s.enabled then
        ((findMatchingPlaybooks s a.typ a.severity).filter (fun pb =>
          !inCooldown s now a.source_ip pb.name pb.cooldown)).map Playbook.name
      else [] := by
  unfold processAlert
  by_cases he : s.enabled = true
  · rw [if_neg (by simp [he]), if_pos he, processAlertLoop_names]
    simp
  · rw [if_pos he, if_neg he]
    simp

theorem approveExecution_cooldowns (s : SOAREngine) (id : String) :
    (approveExecution s id).1.cooldowns = s.cooldowns := by
  unfold approveExecution
  split <;> rfl

theorem rejectExecution_cooldowns (s : SOAREngine) (id : String) :
    (rejectExecution s id).1.cooldowns = s.cooldowns := by
  unfold rejectExecution
  split <;> rfl

/-- The cooldown table is written only when the worker starts executing a
queued playbook, and then it records exactly the execution start time under
the `(source IP, playbook name)` key. -/
theorem soarStep_cooldowns_char (env : SoarEnv) (s : SOAREngine) (op : SoarOp) :
    (soarStep env s op).cooldowns = s.cooldowns ∨
    ∃ t e pb rest, op = .workerOp t ∧ s.execution_queue = (e, pb) :: rest ∧
      (soarStep env s op).cooldowns =
        setA s.cooldowns (ckey e.trigger_alert.source_ip pb.name) t := by
  cases op with
  | alertOp now a =>
    left
    show ((processAlert s now a).1).cooldowns = s.cooldowns
    unfold processAlert
    split
    · rfl
    · exact processAlertLoop_cooldowns now a _ s []
  | workerOp now =>
    cases hq : s.execution_queue with
    | nil =>
      left
      show (workerStep env s now).cooldowns = s.cooldowns
      unfold workerStep
      rw [hq]
    | cons head rest =>
      obtain ⟨e, pb⟩ := head
      right
      refine ⟨now, e, pb, rest, rfl, rfl, ?_⟩
      show (workerStep env s now).cooldowns = _
      unfold workerStep
      rw [hq]
      unfold executePlaybook
      dsimp only
      rw [runSteps_cooldowns]
  | approveOp id =>
    left
    exact approveExecution_cooldowns s id
  | rejectOp id =>
    left
    exact rejectExecution_cooldowns s id

end SOAR

end NetMon

namespace NetMon

namespace SOAR

/-- A trivial environment: the webhook endpoint is unreachable and scripts
fail (neither is consulted in dry-run mode). -/
def trivialEnv : SoarEnv :=
  { webhook_post_ok := fun _ _ => false
    script_run := fun _ _ => .error "unavailable" }

/-- A critical ransomware alert matching the `critical_threat` playbook
(cooldown 300). -/
def c4alert : Alert :=
  { typ := "RANSOMWARE_DETECTED", severity := "CRITICAL",
    source_ip := "10.0.0.5", destination_ip := "10.0.0.6" }

/-- Claim C4: (1) one alert creates an execution for exactly the matching
playbooks whose `(source IP, playbook name)` pairing is out of cooldown,
where being in cooldown means less than `cooldown` seconds have passed since
the time in the cooldown table; (2) the cooldown table is written only when
the worker starts executing that pairing's playbook, recording the execution
time — together: no second execution for a pairing until `cooldown` seconds
after its last execution; (3) concretely, with `cooldown = 300` and an
execution at t=1000, a matching alert at t=1299 creates no execution and one
at t=1301 creates one. -/
theorem cooldown_blocks_reexecution :
    (∀ (s : SOAREngine) (now : ℚ) (a : Alert),
      ((processAlert s now a).2).map Response.playbook =
        if s.enabled then
          ((findMatchingPlaybooks s a.typ a.severity).filter (fun pb =>
            !inCooldown s now a.source_ip pb.name pb.cooldown)).map Playbook.name
        else []) ∧
    (∀ (env : SoarEnv) (s : SOAREngine) (op : SoarOp),
      (soarStep env s op).cooldowns = s.cooldowns ∨
      ∃ t e pb rest, op = .workerOp t ∧ s.execution_queue = (e, pb) :: rest ∧
        (soarStep env s op).cooldowns =
          setA s.cooldowns (ckey e.trigger_alert.source_ip pb.name) t) ∧
    ((processAlert (soarRun trivialEnv (initEngine true false)
        [.alertOp 1000 c4alert, .workerOp 1000]) 1299 c4alert).2 = [] ∧
      ((processAlert (soarRun trivialEnv (initEngine true false)
        [.alertOp 1000 c4alert, .workerOp 1000]) 1301 c4alert).2).map
        Response.playbook = ["critical_threat"]) :=
  ⟨processAlert_names, soarStep_cooldowns_char, by with_unfolding_all decide⟩

/-- An engine whose hourly block budget is already exhausted: ten blocks
recorded within the last hour against the default cap of ten. -/
def cappedEngine : SOAREngine :=
  { initEngine with blocks_this_hour := List.replicate 10 (4000 : ℚ) }

/-- Counterexample to claim C5 as stated: with the hourly cap reached, the
`block_ip` step result still has `success = True` (only a raised exception
sets it to `False`, and the policy violation is returned, not raised); the
violation is reported inside `details` instead.  The claim's
"failed step result (success false ...)" is therefore wrong on this input. -/
theorem block_ip_cap_step_not_failed :
    (executeStep trivialEnv cappedEngine 4500
        { action := .BLOCK_IP } c4alert).2.success = true ∧
    (executeStep trivialEnv cappedEngine 4500
        { action := .BLOCK_IP } c4alert).2.details.error =
      some "Max blocks per hour exceeded" := by
  with_unfolding_all decide

/-- Claim C5 (amended): when the blocks recorded in the past hour have
already reached `max_blocks_per_hour`, the `block_ip` step returns a
structured policy-violation result in `details` (`blocked: False` with the
cap error), no exception is recorded, the step's `success` flag stays
`True`, and the hourly block counter is not incremented (the window rebuild
only drops entries older than an hour). -/
theorem block_ip_hourly_cap (env : SoarEnv) (s : SOAREngine) (now : ℚ)
    (alert : Alert) (params : StepParams)
    (h : s.max_blocks_per_hour ≤
      (s.blocks_this_hour.filter (fun t => decide (now - t < 3600))).length) :
    (executeStep env s now { action := .BLOCK_IP, parameters := params }
        alert).2.success = true ∧
    (executeStep env s now { action := .BLOCK_IP, parameters := params }
        alert).2.details.blocked = some false ∧
    (executeStep env s now { action := .BLOCK_IP, parameters := params }
        alert).2.details.error = some "Max blocks per hour exceeded" ∧
    (executeStep env s now { action := .BLOCK_IP, parameters := params }
        alert).2.error = none ∧
    (executeStep env s now { action := .BLOCK_IP, parameters := params }
        alert).1.blocks_this_hour =
      s.blocks_this_hour.filter (fun t => decide (now - t < 3600)) := by
  unfold executeStep actionBlockIp
  dsimp only
  rw [if_pos (by exact h)]
  exact ⟨rfl, rfl, rfl, rfl, rfl⟩

/-- Witness for C5 (amended): the capped engine above, with all ten window
entries inside the hour. -/
theorem block_ip_hourly_cap_witness :
    (executeStep trivialEnv cappedEngine 4500
        { action := .BLOCK_IP } c4alert).2.success = true ∧
    (executeStep trivialEnv cappedEngine 4500
        { action := .BLOCK_IP } c4alert).2.details.blocked = some false ∧
    (executeStep trivialEnv cappedEngine 4500
        { action := .BLOCK_IP } c4alert).2.details.error =
      some "Max blocks per hour exceeded" ∧
    (executeStep trivialEnv cappedEngine 4500
        { action := .BLOCK_IP } c4alert).2.error = none ∧
    (executeStep trivialEnv cappedEngine 4500
        { action := .BLOCK_IP } c4alert).1.blocks_this_hour =
      cappedEngine.blocks_this_hour.filter
        (fun t => decide ((4500 : ℚ) - t < 3600)) :=
  block_ip_hourly_cap trivialEnv cappedEngine 4500 c4alert {}
    (by with_unfolding_all decide)

/-- Claim C10: `approve_execution` and `reject_execution` on an id that is
not pending return `False` and leave the whole engine state unchanged. -/
theorem approve_reject_unknown_id (s : SOAREngine) (id : String)
    (h : lookupA s.pending_approvals id = none) :
    approveExecution s id = (s, false) ∧ rejectExecution s id = (s, false) := by
  unfold approveExecution rejectExecution
  rw [h]
  exact ⟨rfl, rfl⟩

/-- Witness for C10: a fresh engine and an id nobody queued. -/
theorem approve_reject_unknown_id_witness :
    approveExecution (initEngine) "deadbeef" = (initEngine, false) ∧
    rejectExecution (initEngine) "deadbeef" = (initEngine, false) :=
  approve_reject_unknown_id (initEngine) "deadbeef" rfl

end SOAR

end NetMon

namespace NetMon

/-- The scapy packet surface the decoders read: layer-presence flags, the
IP/TCP fields and the raw TCP payload. -/
structure Packet where
  hasIP : Bool := true
  hasTCP : Bool := true
  hasRaw : Bool := true
  src_ip : String := ""
  dst_ip : String := ""
  sport : Nat := 0
  dport : Nat := 0
  payload : Bytes := []
  deriving DecidableEq, Repr

/-- A value of a threat's `details` dict. -/
inductive Detail : Type
  | str (s : String)
  | nat (n : Nat)
  | bool (b : Bool)
  | strs (l : List String)
  | null
  deriving DecidableEq, Repr

/-- A `ThreatEvent` dict as built by the decoders. -/
structure Threat where
  typ : String
  severity : String
  source_ip : String
  destination_ip : String
  description : String
  details : List (String × Detail) := []
  deriving DecidableEq, Repr

namespace PP

/-! ## Embedding of `protocol_parser.py` (class `ProtocolParser`) -/

def SMB1_SIGNATURE : Bytes := [0xff, 0x53, 0x4d, 0x42]
def SMB2_SIGNATURE : Bytes := [0xfe, 0x53, 0x4d, 0x42]

def SMB2_TREE_CONNECT : Nat := 0x0003
def SMB2_CREATE : Nat := 0x0005
def SMB2_QUERY_DIRECTORY : Nat := 0x000e

def SENSITIVE_LDAP_ATTRS : List String :=
  ["userpassword", "unicodepwd", "ntpasswordhash", "lmpasswordhash",
   "supplementalcredentials", "msds-managedpasswordid",
   "msds-managedpassword", "msds-groupmsamembership",
   "serviceprincipalname", "msds-allowedtodelegateto",
   "msds-allowedtoactonbehalfofotheridentity", "sidhistory",
   "admincount", "member", "memberof", "primarygroupid",
   "objectsid", "objectguid"]

def SENSITIVE_LDAP_BASES : List String :=
  ["cn=configuration", "cn=schema", "cn=system",
   "cn=builtin", "cn=ntds quotas", "cn=infrastructure"]

def ADMIN_SHARES : List String :=
  ["c$", "admin$", "ipc$", "d$", "e$", "print$", "sysvol", "netlogon"]

def SMB_PORTS : List Nat := [445, 139]
def LDAP_PORTS : List Nat := [389, 636, 3268, 3269]

/-- `self.stats`. -/
structure PPStats where
  smb_packets : Nat := 0
  smb1_packets : Nat := 0
  smb2_packets : Nat := 0
  ldap_packets : Nat := 0
  admin_share_access : Nat := 0
  sensitive_ldap_queries : Nat := 0
  deriving DecidableEq, Repr

/-- One `smb_sessions` entry. -/
structure SmbSession where
  start_time : ℚ
  commands : List (ℚ × Nat) := []
  shares : List String := []
  files : List String := []
  deriving DecidableEq, Repr

/-- One `ldap_sessions` entry (`operations` holds `(time, 'search', base)`). -/
structure LdapSession where
  start_time : ℚ
  operations : List (ℚ × String × String) := []
  search_bases : List String := []
  requested_attrs : List String := []
  deriving DecidableEq, Repr

/-- The mutable state of `ProtocolParser` (default config: enabled, SMB1
flagged; `db_manager` unused by the analysis paths). -/
structure PPState where
  enabled : Bool := true
  flag_smb1 : Bool := true
  smb_sessions : List (String × SmbSession) := []
  smb_share_access : List (String × List (ℚ × String × String)) := []
  smb_file_access : List (String × List (ℚ × String × String)) := []
  smb_enum_tracker : List (String × List (ℚ × String)) := []
  ldap_sessions : List (String × LdapSession) := []
  ldap_query_tracker : List (String × List (ℚ × String × List String)) := []
  ldap_attr_tracker : List (String × List String) := []
  stats : PPStats := {}
  deriving Repr

/-- The body of `_extract_share_path` for one decoded text. -/
def extractSharePathFromText (text : String) : Option String :=
  if strContains text "\\\\" then
    let start := (strFind text "\\\\").getD 0
    let stop :=
      match strFindFrom text "\x00" start with
      | some e => e
      | none => min text.length (start + 200)
    let path := stripChars (strSlice text start stop) ['\x00']
    if path.length > 4 then some path else none
  else none

/-- `_extract_share_path`: try UTF-16-LE then UTF-8; a miss (no UNC marker
or too-short path) falls through to the next encoding. -/
def extractSharePath (data : Bytes) : Option String :=
  match extractSharePathFromText (decodeUtf16LeIgnore data) with
  | some p => some p
  | none => extractSharePathFromText (decodeUtf8Ignore data)

/-- `_analyze_tree_connect` (its `try` guards no fallible operation: the
extraction helpers handle their own errors). -/
def analyzeTreeConnect (st : PPState) (data : Bytes) (offset : Nat)
    (src_ip dst_ip : String) (now : ℚ) : PPState × Option Threat :=
  match extractSharePath (pyDrop data offset) with
  | none => (st, none)
  | some share_path =>
    let share_name := (splitOnChar (asciiLower share_path) '\\').getLastD ""
    let tracked := pushMax 100 (getDA st.smb_share_access src_ip [])
      (now, dst_ip, share_name)
    let st := { st with smb_share_access := setA st.smb_share_access src_ip tracked }
    if ADMIN_SHARES.contains share_name then
      ({ st with stats :=
          { st.stats with admin_share_access := st.stats.admin_share_access + 1 } },
       some { typ := "SMB_ADMIN_SHARE_ACCESS"
              severity := if share_name = "ipc$" then "MEDIUM" else "HIGH"
              source_ip := src_ip
              destination_ip := dst_ip
              description := "Access to administrative share: " ++ share_path
              details := [("share_name", .str share_name),
                          ("full_path", .str share_path)] })
    else (st, none)

/-- `_extract_filename`. -/
def extractFilename (data : Bytes) : Option String :=
  ((splitOnChar (decodeUtf16LeIgnore data) '\x00').map stripWs).find?
    (fun p => p.length > 3 &&
      (strContains p "\\" || strContains p "/" || strContains p "."))

/-- `_analyze_file_create`. -/
def analyzeFileCreate (st : PPState) (data : Bytes) (offset : Nat)
    (src_ip dst_ip : String) (now : ℚ) : PPState × Option Threat :=
  match extractFilename (pyDrop data offset) with
  | none => (st, none)
  | some filename =>
    let tracked := pushMax 500 (getDA st.smb_file_access src_ip [])
      (now, dst_ip, filename)
    let st := { st with smb_file_access := setA st.smb_file_access src_ip tracked }
    let fl := asciiLower filename
    if strContains fl "ntds.dit" then
      (st, some { typ := "NTDS_DIT_ACCESS", severity := "CRITICAL"
                  source_ip := src_ip, destination_ip := dst_ip
                  description := "Access to NTDS.dit (Active Directory database)"
                  details := [("filename", .str filename)] })
    else if strContains fl "system32\\config\\sam" ||
        strContains fl "system32\\config\\system" ||
        strContains fl "system32\\config\\security" then
      (st, some { typ := "REGISTRY_HIVE_ACCESS", severity := "CRITICAL"
                  source_ip := src_ip, destination_ip := dst_ip
                  description := "Access to sensitive registry hive: " ++ filename
                  details := [("filename", .str filename)] })
    else if strContains fl "lsass" && strContains fl ".dmp" then
      (st, some { typ := "LSASS_DUMP_ACCESS", severity := "CRITICAL"
                  source_ip := src_ip, destination_ip := dst_ip
                  description := "Access to LSASS memory dump"
                  details := [("filename", .str filename)] })
    else (st, none)

/-- `_detect_smb_enumeration`: record the query, then count the queries of
the last 60 seconds; at 20 or more, emit an enumeration event (every such
call emits one — there is no deduplication). -/
def detectSmbEnumeration (st : PPState) (src_ip dst_ip : String) (now : ℚ) :
    PPState × Option Threat :=
  let tracker := pushMax 200 (getDA st.smb_enum_tracker src_ip []) (now, dst_ip)
  let st := { st with smb_enum_tracker := setA st.smb_enum_tracker src_ip tracker }
  let recent := tracker.filter (fun e => decide (e.1 ≥ now - 60))
  if recent.length ≥ 20 then
    (st, some { typ := "SMB_ENUMERATION", severity := "MEDIUM"
                source_ip := src_ip, destination_ip := dst_ip
                description := "SMB enumeration detected: " ++
                  natStr recent.length ++ " directory queries in 1 minute"
                details := [("query_count", .nat recent.length),
                            ("window_seconds", .nat 60)] })
  else (st, none)

/-- `_detect_smb_attack_pattern`. -/
def detectSmbAttackPattern (session : SmbSession) (src_ip dst_ip : String) :
    Option Threat :=
  if session.commands.length < 5 then none
  else
    let recent_cmds :=
      (session.commands.drop (session.commands.length - 20)).map Prod.snd
    let tree_connects := (recent_cmds.filter (· = SMB2_TREE_CONNECT)).length
    let creates := (recent_cmds.filter (· = SMB2_CREATE)).length
    if tree_connects ≥ 5 ∧ creates ≥ 10 then
      some { typ := "SMB_LATERAL_MOVEMENT_PATTERN", severity := "HIGH"
             source_ip := src_ip, destination_ip := dst_ip
             description := "SMB lateral movement pattern: " ++
               natStr tree_connects ++ " share connections, " ++
               natStr creates ++ " file operations"
             details := [("tree_connects", .nat tree_connects),
                         ("file_creates", .nat creates)] }
    else none

/-- `_parse_smb2`.  The two `struct.unpack` calls read full two-byte slices
(the length guard ensures it), so the `except` fallback branches are
unreachable but modelled. -/
def parseSmb2 (st : PPState) (data : Bytes) (src_ip dst_ip : String)
    (now : ℚ) (offset : Nat := 4) : PPState × List Threat :=
  let st := { st with stats := { st.stats with
    smb_packets := st.stats.smb_packets + 1
    smb2_packets := st.stats.smb2_packets + 1 } }
  if data.length < offset + 64 then (st, [])
  else if pySlice data offset (offset + 4) ≠ SMB2_SIGNATURE then (st, [])
  else
    match unpackLE2 (pySlice data (offset + 4) (offset + 6)),
        unpackLE2 (pySlice data (offset + 12) (offset + 14)) with
    | .ok _header_length, .ok command =>
      let session_key := src_ip ++ ":" ++ dst_ip
      let session :=
        match lookupA st.smb_sessions session_key with
        | some s => s
        | none => { start_time := now }
      let session := { session with commands := session.commands ++ [(now, command)] }
      let st := { st with smb_sessions := setA st.smb_sessions session_key session }
      let (st, cmd_threat) :=
        if command = SMB2_TREE_CONNECT then
          analyzeTreeConnect st data (offset + 64) src_ip dst_ip now
        else if command = SMB2_CREATE then
          analyzeFileCreate st data (offset + 64) src_ip dst_ip now
        else if command = SMB2_QUERY_DIRECTORY then
          detectSmbEnumeration st src_ip dst_ip now
        else (st, none)
      let pattern_threat := detectSmbAttackPattern session src_ip dst_ip
      (st, cmd_threat.toList ++ pattern_threat.toList)
    | _, _ => (st, [])

/-- `_parse_smb1` (the single header-byte read is in bounds; the `except`
branch is unreachable but modelled). -/
def parseSmb1 (st : PPState) (data : Bytes) (src_ip dst_ip : String)
    (_now : ℚ) (offset : Nat := 4) : PPState × List Threat :=
  let st := { st with stats := { st.stats with
    smb_packets := st.stats.smb_packets + 1
    smb1_packets := st.stats.smb1_packets + 1 } }
  if data.length < offset + 32 then (st, [])
  else if pySlice data offset (offset + 4) ≠ SMB1_SIGNATURE then (st, [])
  else
    match pyGet data (offset + 4) with
    | .ok command =>
      if st.flag_smb1 then
        (st, [{ typ := "SMB1_USAGE_DETECTED", severity := "LOW"
                source_ip := src_ip, destination_ip := dst_ip
                description := "SMB1 protocol usage detected (deprecated and insecure)"
                details := [("command", .nat command),
                            ("recommendation", .str "Disable SMB1 and use SMB2/3")] }])
      else (st, [])
    | .error _ => (st, [])

/-- `_analyze_smb` (signature dispatch; its `try` guards no fallible
operation, since the sub-parsers handle their own errors). -/
def analyzeSmb (st : PPState) (data : Bytes) (src_ip dst_ip : String)
    (now : ℚ) : PPState × List Threat :=
  if data.length < 8 then (st, [])
  else if pySlice data 4 8 = SMB2_SIGNATURE then parseSmb2 st data src_ip dst_ip now 4
  else if pySlice data 4 8 = SMB1_SIGNATURE then parseSmb1 st data src_ip dst_ip now 4
  else if pySlice data 0 4 = SMB2_SIGNATURE then parseSmb2 st data src_ip dst_ip now 0
  else if pySlice data 0 4 = SMB1_SIGNATURE then parseSmb1 st data src_ip dst_ip now 0
  else (st, [])

end PP

end NetMon

namespace NetMon

namespace PP

/-- `_parse_ber_length` (the one index read is behind the bounds guard, so
its `except` is unreachable; `none` is Python's `None` length). -/
def parseBerLength (data : Bytes) (offset : Nat) : Option Nat × Nat :=
  match data.get? offset with
  | none => (none, offset)
  | some length_byte =>
    let offset := offset + 1
    if length_byte &&& 0x80 = 0 then (some length_byte, offset)
    else
      let num_octets := length_byte &&& 0x7f
      if num_octets = 0 ∨ offset + num_octets > data.length then (none, offset)
      else (some (intFromBytesBE (pySlice data offset (offset + num_octets))),
            offset + num_octets)

/-- `_extract_filter_string` (`len(part) > 2 and part.isalnum() or '=' in
part` parses as `(len > 2 ∧ isalnum) ∨ '=' ∈ part`). -/
def extractFilterString (data : Bytes) : String :=
  let text := decodeUtf8Ignore data
  let parts := ((splitOnChar text '\x00').map stripWs).filter
    (fun p => (p.length > 2 && isAlnumAscii p) || strContains p "=")
  String.intercalate " " (parts.take 10)

/-- The fixed attribute vocabulary of `_extract_ldap_attributes`. -/
def COMMON_LDAP_ATTRS : List String :=
  ["objectclass", "cn", "sn", "givenname", "displayname",
   "samaccountname", "userprincipalname", "mail", "member",
   "memberof", "distinguishedname", "objectsid", "objectguid",
   "serviceprincipalname", "admincount", "useraccountcontrol",
   "lastlogon", "pwdlastset", "accountexpires", "description",
   "userpassword", "unicodepwd", "ntpasswordhash"]

/-- `_extract_ldap_attributes`: vocabulary words that occur in the decoded
text. -/
def extractLdapAttributes (data : Bytes) : List String :=
  let text_lower := asciiLower (decodeUtf8Ignore data)
  COMMON_LDAP_ATTRS.filter (fun attr => strContains text_lower attr)

/-- A parsed `_parse_search_request` result (dict with defaults). -/
structure SearchReq where
  base_dn : String := ""
  filter : String := ""
  attributes : List String := []
  deriving DecidableEq, Repr

/-- The scope/deref/sizelimit/timelimit/typesonly skip loop of
`_parse_search_request` (`for _ in range(5)` with a bounds break). -/
def skipBerFields (data : Bytes) : Nat → Nat → Nat
  | 0, offset => offset
  | n + 1, offset =>
    if offset ≥ data.length then offset
    else
      let offset := offset + 1
      let (length?, offset) := parseBerLength data offset
      match length? with
      | some l => if l ≠ 0 then skipBerFields data n (offset + l)
                  else skipBerFields data n offset
      | none => skipBerFields data n offset

/-- `_parse_search_request`.  Its only raise point is `data[0]` on an empty
buffer; the `except` then returns the default result.  (`if length:`
is Python truthiness: `None` and `0` both skip.) -/
def parseSearchRequest (data : Bytes) : SearchReq :=
  match data.get? 0 with
  | none => {}
  | some b0 =>
    let (base_dn, offset) :=
      if b0 = 0x04 then
        let (length?, off) := parseBerLength data 1
        match length? with
        | some n =>
          if n ≠ 0 then (decodeUtf8Ignore (pySlice data off (off + n)), off + n)
          else ("", off)
        | none => ("", off)
      else ("", 0)
    let offset := skipBerFields data 5 offset
    let filt :=
      if offset < data.length then extractFilterString (pyDrop data offset)
      else ""
    { base_dn := base_dn, filter := filt, attributes := extractLdapAttributes data }

/-- A parsed `_parse_ldap_message` result. -/
structure LdapParsed where
  message_id : Nat := 0
  operation : Nat
  search : SearchReq := {}
  deriving DecidableEq, Repr

def LDAP_SEARCH_REQUEST : Nat := 3

/-- `_parse_ldap_message`.  The unguarded index reads raise `IndexError`,
which the function's own `except` turns into `None`; explicit `return
None`s coincide with that outcome. -/
def parseLdapMessage (data : Bytes) : Option LdapParsed :=
  match data.get? 0 with
  | none => none
  | some b0 =>
    if b0 ≠ 0x30 then none
    else
      match parseBerLength data 1 with
      | (none, _) => none
      | (some _, offset) =>
        match data.get? offset with
        | none => none
        | some tag =>
          if tag ≠ 0x02 then none
          else
            let (id_length?, offset) := parseBerLength data (offset + 1)
            let (message_id, offset) :=
              match id_length? with
              | some n =>
                if n ≠ 0 then
                  (intFromBytesBE (pySlice data offset (offset + n)), offset + n)
                else (0, offset)
              | none => (0, offset)
            if offset ≥ data.length then none
            else
              match data.get? offset with
              | none => none
              | some op_tag =>
                let operation := op_tag &&& 0x1f
                let (op_length?, offset) := parseBerLength data (offset + 1)
                let search :=
                  match op_length? with
                  | some l =>
                    if operation = LDAP_SEARCH_REQUEST ∧ l ≠ 0 then
                      parseSearchRequest (pySlice data offset (offset + l))
                    else {}
                  | none => {}
                some { message_id := message_id, operation := operation,
                       search := search }

/-- `_detect_ldap_enumeration` (reads the tracker recorded before the
call). -/
def detectLdapEnumeration (st : PPState) (src_ip dst_ip : String) (now : ℚ) :
    Option Threat :=
  let recent := (getDA st.ldap_query_tracker src_ip []).filter
    (fun e => decide (e.1 ≥ now - 60))
  if recent.length ≥ 20 then
    let unique_bases := (recent.map (fun e => e.2.1)).dedup
    let all_attrs := getDA st.ldap_attr_tracker src_ip []
    some { typ := "LDAP_ENUMERATION", severity := "MEDIUM"
           source_ip := src_ip, destination_ip := dst_ip
           description := "LDAP enumeration: " ++ natStr recent.length ++
             " queries to " ++ natStr unique_bases.length ++ " bases in 1 minute"
           details := [("query_count", .nat recent.length),
                       ("unique_bases", .nat unique_bases.length),
                       ("unique_attrs", .nat all_attrs.length),
                       ("window_seconds", .nat 60)] }
  else none

/-- `_detect_ldap_attack_pattern`. -/
def detectLdapAttackPattern (search_filter base_dn src_ip dst_ip : String) :
    Option Threat :=
  let filter_lower := asciiLower search_filter
  let base_lower := asciiLower base_dn
  if strContains filter_lower "serviceprincipalname" &&
      !strContains base_lower "serviceprincipalname" then
    some { typ := "LDAP_SPN_ENUMERATION", severity := "HIGH"
           source_ip := src_ip, destination_ip := dst_ip
           description := "LDAP SPN enumeration (Kerberoasting reconnaissance)"
           details := [("filter", .str search_filter), ("base_dn", .str base_dn)] }
  else if strContains filter_lower "useraccountcontrol" &&
      strContains search_filter "4194304" then
    some { typ := "LDAP_ASREP_ENUMERATION", severity := "HIGH"
           source_ip := src_ip, destination_ip := dst_ip
           description := "LDAP enumeration for AS-REP roastable accounts"
           details := [("filter", .str search_filter), ("base_dn", .str base_dn)] }
  else if strContains filter_lower "admincount=1" ||
      strContains filter_lower "domain admins" then
    some { typ := "LDAP_ADMIN_ENUMERATION", severity := "MEDIUM"
           source_ip := src_ip, destination_ip := dst_ip
           description := "LDAP enumeration for privileged accounts"
           details := [("filter", .str search_filter), ("base_dn", .str base_dn)] }
  else none

/-- `set.add` over a list-modelled set. -/
def insertSet (l : List String) (x : String) : List String :=
  if l.contains x then l else l ++ [x]

/-- `_analyze_ldap` (the `try` body is total: `_parse_ldap_message` and the
helpers handle their own errors). -/
def analyzeLdap (st : PPState) (data : Bytes) (src_ip dst_ip : String)
    (now : ℚ) : PPState × List Threat :=
  let st := { st with stats :=
    { st.stats with ldap_packets := st.stats.ldap_packets + 1 } }
  if data.length < 10 then (st, [])
  else
    match parseLdapMessage data with
    | none => (st, [])
    | some parsed =>
      let session_key := src_ip ++ ":" ++ dst_ip
      let session :=
        match lookupA st.ldap_sessions session_key with
        | some s => s
        | none => { start_time := now }
      let st := { st with ldap_sessions := setA st.ldap_sessions session_key session }
      if parsed.operation = LDAP_SEARCH_REQUEST then
        let search_base := parsed.search.base_dn
        let search_filter := parsed.search.filter
        let attributes := parsed.search.attributes
        let session := { session with
          operations := session.operations ++ [(now, "search", search_base)] }
        let st := { st with ldap_sessions := setA st.ldap_sessions session_key session }
        let tracked := pushMax 200 (getDA st.ldap_query_tracker src_ip [])
          (now, search_base, attributes)
        let qt := setA st.ldap_query_tracker src_ip tracked
        let st := { st with ldap_query_tracker := qt }
        let attrset := attributes.foldl
          (fun acc a => insertSet acc (asciiLower a))
          (getDA st.ldap_attr_tracker src_ip [])
        let at2 := setA st.ldap_attr_tracker src_ip attrset
        let st := { st with ldap_attr_tracker := at2 }
        let sensitive_requested := attributes.filter
          (fun a => SENSITIVE_LDAP_ATTRS.contains (asciiLower a))
        let (st, t1) :=
          if sensitive_requested ≠ [] then
            ({ st with stats := { st.stats with
                sensitive_ldap_queries := st.stats.sensitive_ldap_queries + 1 } },
             some { typ := "LDAP_SENSITIVE_ATTR_QUERY", severity := "HIGH"
                    source_ip := src_ip, destination_ip := dst_ip
                    description := "LDAP query for sensitive attributes: " ++
                      String.intercalate ", " sensitive_requested
                    details := [("base_dn", .str search_base),
                                ("sensitive_attrs", .strs sensitive_requested),
                                ("all_attrs", .strs attributes)] })
          else (st, none)
        let t2 :=
          if SENSITIVE_LDAP_BASES.any
              (fun b => strContains (asciiLower search_base) b) then
            some { typ := "LDAP_SENSITIVE_BASE_QUERY", severity := "MEDIUM"
                   source_ip := src_ip, destination_ip := dst_ip
                   description := "LDAP query on sensitive base: " ++ search_base
                   details := [("base_dn", .str search_base),
                               ("filter", .str search_filter)] }
          else none
        let t3 := detectLdapEnumeration st src_ip dst_ip now
        let t4 := detectLdapAttackPattern search_filter search_base src_ip dst_ip
        (st, t1.toList ++ t2.toList ++ t3.toList ++ t4.toList)
      else (st, [])

/-- `ProtocolParser.analyze_packet`.  The result type records that the
Python function can in principle raise to its caller; the body shows it
never does: the port dispatch is pure and both `_analyze_smb` and
`_analyze_ldap` catch their own parse errors. -/
def analyzePacket (st : PPState) (pkt : Packet) (now : ℚ) :
    Except PyErr (PPState × List Threat) := do
  if ¬st.enabled then return (st, [])
  if ¬(pkt.hasIP ∧ pkt.hasTCP) then return (st, [])
  if ¬pkt.hasRaw then return (st, [])
  let raw := pkt.payload
  let (st, smb_threats) :=
    if SMB_PORTS.contains pkt.dport ∨ SMB_PORTS.contains pkt.sport then
      analyzeSmb st raw pkt.src_ip pkt.dst_ip now
    else (st, [])
  let (st, ldap_threats) :=
    if LDAP_PORTS.contains pkt.dport ∨ LDAP_PORTS.contains pkt.sport then
      analyzeLdap st raw pkt.src_ip pkt.dst_ip now
    else (st, [])
  return (st, smb_threats ++ ldap_threats)

end PP

end NetMon

namespace NetMon

namespace PP

/-- A minimal SMB2 QUERY_DIRECTORY packet to port 445: 4-byte NetBIOS
header, `\xFESMB` signature, header length 64 (LE) and command `0x000e`
(LE) at header offset 12, padded to the 64-byte header. -/
def qdPacket : Packet :=
  { src_ip := "10.0.0.9", dst_ip := "10.0.0.7", sport := 50000, dport := 445,
    payload := [0, 0, 0, 0, 0xfe, 0x53, 0x4d, 0x42, 64, 0] ++
      List.replicate 6 0 ++ [0x0e, 0] ++ List.replicate 50 0 }

/-- Feed `n` copies of `qdPacket` one second apart (all inside one
60-second window), collecting every emitted threat. -/
def smbFeed (n : Nat) : PPState × List Threat :=
  (List.range n).foldl
    (fun acc i =>
      match analyzePacket acc.1 qdPacket (1000 + (i : ℚ)) with
      | .ok (st, ts) => (st, acc.2 ++ ts)
      | .error _ => acc)
    ({}, [])

/-- How many `SMB_ENUMERATION` events the feed produced. -/
def countEnum (n : Nat) : Nat :=
  ((smbFeed n).2.filter (fun t => t.typ = "SMB_ENUMERATION")).length

set_option maxRecDepth 4000 in
/-- Counterexample to claim C3 as stated: 25 SMB2 QUERY_DIRECTORY packets
from one source inside 60 seconds yield six `SMB_ENUMERATION` events — one
per packet from the 20th on, since `_detect_smb_enumeration` re-fires on
every packet whose window count is ≥ 20 — not exactly one. -/
theorem smb_enumeration_not_single_event :
    countEnum 25 = 6 ∧ countEnum 25 ≠ 1 := by
  with_unfolding_all decide

set_option maxRecDepth 4000 in
/-- Claim C3 (amended): 25 QUERY_DIRECTORY packets from one source within
60 seconds yield exactly six `SMB_ENUMERATION` events (one per packet from
the 20th through the 25th) and 19 yield none; in general one call emits an
event exactly when the source's 60-second window count, including the
current query, has reached 20. -/
theorem smb_enumeration_threshold :
    countEnum 25 = 6 ∧ countEnum 19 = 0 ∧
    ((smbFeed 25).2.filter (fun t => t.typ = "SMB_ENUMERATION")).all
      (fun t => t.severity = "MEDIUM") = true ∧
    (∀ (st : PPState) (src dst : String) (now : ℚ),
      ((detectSmbEnumeration st src dst now).2).isSome =
        decide (20 ≤ ((pushMax 200 (getDA st.smb_enum_tracker src [])
          (now, dst)).filter (fun e => decide (e.1 ≥ now - 60))).length)) := by
  refine ⟨?_, ?_, ?_, ?_⟩
  · with_unfolding_all decide
  · with_unfolding_all decide
  · with_unfolding_all decide
  · intro st src dst now
    unfold detectSmbEnumeration
    dsimp only
    split
    · next h => exact (decide_eq_true h).symm
    · next h => exact (decide_eq_false h).symm

end PP

end NetMon

namespace NetMon

namespace ETA

/-! ## Embedding of `encrypted_traffic_analyzer.py`
(class `EncryptedTrafficAnalyzer`) -/

/-- `hex(n)` as Python prints it (lowercase, no leading zeros, `0x0`). -/
def hexStr (n : Nat) : String :=
  "0x" ++ String.mk (Nat.toDigits 16 n)

/-- `TLS_VERSIONS`. -/
def TLS_VERSIONS : List (Nat × String) :=
  [(0x0300, "SSL 3.0"), (0x0301, "TLS 1.0"), (0x0302, "TLS 1.1"),
   (0x0303, "TLS 1.2"), (0x0304, "TLS 1.3")]

/-- `TLS_VERSIONS.get(v, dflt)`. -/
def tlsVersionGet (v : Nat) (dflt : String) : String :=
  match TLS_VERSIONS.lookup v with
  | some s => s
  | none => dflt

def EXT_SNI : Nat := 0
def EXT_SUPPORTED_GROUPS : Nat := 10
def EXT_EC_POINT_FORMATS : Nat := 11
def EXT_ALPN : Nat := 16
def EXT_SUPPORTED_VERSIONS : Nat := 43
def EXT_KEY_SHARE : Nat := 51
def EXT_ENCRYPTED_CLIENT_HELLO : Nat := 0xfe0d
def EXT_ESNI : Nat := 0xffce

/-- `WEAK_CIPHERS` (id, name). -/
def WEAK_CIPHERS : List (Nat × String) :=
  [(0x0000, "TLS_NULL_WITH_NULL_NULL"),
   (0x0001, "TLS_RSA_WITH_NULL_MD5"),
   (0x0002, "TLS_RSA_WITH_NULL_SHA"),
   (0x0004, "TLS_RSA_WITH_RC4_128_MD5"),
   (0x0005, "TLS_RSA_WITH_RC4_128_SHA"),
   (0x000a, "TLS_RSA_WITH_3DES_EDE_CBC_SHA"),
   (0x002f, "TLS_RSA_WITH_AES_128_CBC_SHA"),
   (0x0035, "TLS_RSA_WITH_AES_256_CBC_SHA"),
   (0x0003, "TLS_RSA_EXPORT_WITH_RC4_40_MD5"),
   (0x0006, "TLS_RSA_EXPORT_WITH_RC2_CBC_40_MD5"),
   (0x0008, "TLS_RSA_EXPORT_WITH_DES40_CBC_SHA"),
   (0x0009, "TLS_RSA_WITH_DES_CBC_SHA"),
   (0x0011, "TLS_DHE_DSS_EXPORT_WITH_DES40_CBC_SHA"),
   (0x0014, "TLS_DHE_RSA_EXPORT_WITH_DES40_CBC_SHA"),
   (0x0017, "TLS_DH_anon_EXPORT_WITH_RC4_40_MD5"),
   (0x0019, "TLS_DH_anon_EXPORT_WITH_DES40_CBC_SHA")]

/-- `STRONG_CIPHERS` (id, name). -/
def STRONG_CIPHERS : List (Nat × String) :=
  [(0x1301, "TLS_AES_128_GCM_SHA256"),
   (0x1302, "TLS_AES_256_GCM_SHA384"),
   (0x1303, "TLS_CHACHA20_POLY1305_SHA256"),
   (0xc02b, "TLS_ECDHE_ECDSA_WITH_AES_128_GCM_SHA256"),
   (0xc02c, "TLS_ECDHE_ECDSA_WITH_AES_256_GCM_SHA384"),
   (0xc02f, "TLS_ECDHE_RSA_WITH_AES_128_GCM_SHA256"),
   (0xc030, "TLS_ECDHE_RSA_WITH_AES_256_GCM_SHA384"),
   (0xcca8, "TLS_ECDHE_RSA_WITH_CHACHA20_POLY1305_SHA256"),
   (0xcca9, "TLS_ECDHE_ECDSA_WITH_CHACHA20_POLY1305_SHA256")]

/-- The keys of `CDN_PROVIDERS`. -/
def CDN_PROVIDERS : List String :=
  ["cloudfront.net", "cloudflare.com", "akamaized.net", "azureedge.net",
   "fastly.net", "googleapis.com", "googleusercontent.com"]

/-- `GREASE_VALUES` (RFC 8701). -/
def GREASE_VALUES : List Nat :=
  [0x0a0a, 0x1a1a, 0x2a2a, 0x3a3a, 0x4a4a, 0x5a5a,
   0x6a6a, 0x7a7a, 0x8a8a, 0x9a9a, 0xaaaa, 0xbaba,
   0xcaca, 0xdada, 0xeaea, 0xfafa]

/-- `self.stats`. -/
structure EtaStats where
  packets_analyzed : Nat := 0
  tls13_sessions : Nat := 0
  esni_detected : Nat := 0
  ech_detected : Nat := 0
  weak_ciphers_detected : Nat := 0
  self_signed_certs : Nat := 0
  expired_certs : Nat := 0
  domain_fronting_suspected : Nat := 0
  deriving DecidableEq, Repr

/-- A `self.sessions` entry recorded at Client Hello time. -/
structure EtaSession where
  sni : Option String := none
  client_hello_time : ℚ := 0
  tls_version : Option String := none
  has_esni : Bool := false
  has_ech : Bool := false
  deriving DecidableEq, Repr

/-- A `self.sni_host_mismatches` entry. -/
structure Mismatch where
  time : ℚ
  sni : String
  cert_domains : List String
  src_ip : String
  dst_ip : String
  deriving DecidableEq, Repr

/-- The mutable state of `EncryptedTrafficAnalyzer` with its default
configuration.  `session_history`, `seen_certificates` and
`certificate_anomalies` are declared in `__init__` but never written on the
analysis paths, so they are omitted. -/
structure ETAState where
  enabled : Bool := true
  detect_weak_ciphers : Bool := true
  detect_self_signed : Bool := true
  detect_expired_certs : Bool := true
  detect_domain_fronting : Bool := true
  detect_esni_ech : Bool := true
  sessions : List (String × EtaSession) := []
  sni_host_mismatches : List Mismatch := []
  stats : EtaStats := {}
  deriving Repr

/-- `_parse_client_hello_extended`'s result dict.  `legacy_version` and
`tls_version` are `none` until the parse reaches the point that sets them
(the early returns leave them unset). -/
structure CHData where
  cipher_suites : List Nat := []
  extensions : List Nat := []
  has_esni : Bool := false
  has_ech : Bool := false
  sni : Option String := none
  alpn : List String := []
  supported_versions : List Nat := []
  key_share_groups : List Nat := []
  legacy_version : Option String := none
  tls_version : Option String := none
  deriving DecidableEq, Repr

/-- `_extract_sni`. -/
def extractSni (data : Bytes) : Option String :=
  if data.length < 5 then none
  else
    match data.get? 2 with
    | none => none
    | some ty =>
      if ty ≠ 0 then none
      else
        match unpackBE2 (pySlice data 3 5) with
        | .ok name_length =>
          if 5 + name_length > data.length then none
          else some (decodeUtf8Ignore (pySlice data 5 (5 + name_length)))
        | .error _ => none

/-- The loop of `_extract_alpn` (fuel: the offset advances by at least one
byte per iteration). -/
def alpnLoop (data : Bytes) (list_length : Nat) :
    Nat → Nat → List String → List String
  | 0, _, acc => acc
  | fuel + 1, offset, acc =>
    if offset < 2 + list_length ∧ offset < data.length then
      match data.get? offset with
      | some proto_len =>
        let offset := offset + 1
        let acc :=
          if offset + proto_len ≤ data.length then
            acc ++ [decodeUtf8Ignore (pySlice data offset (offset + proto_len))]
          else acc
        alpnLoop data list_length fuel (offset + proto_len) acc
      | none => acc
    else acc

/-- `_extract_alpn`. -/
def extractAlpn (data : Bytes) : List String :=
  if data.length < 2 then []
  else
    match unpackBE2 (pySlice data 0 2) with
    | .ok list_length => alpnLoop data list_length data.length 2 []
    | .error _ => []

/-- `_extract_supported_versions`: `for i in range(1, min(length+1, len), 2)`
with an in-bounds unpack per index. -/
def extractSupportedVersions (data : Bytes) : List Nat :=
  match data.get? 0 with
  | none => []
  | some length =>
    let bound := min (length + 1) data.length
    (List.range' 1 (bound / 2) 2).foldl
      (fun acc i =>
        if i + 2 ≤ data.length then
          match unpackBE2 (pySlice data i (i + 2)) with
          | .ok version =>
            if ¬GREASE_VALUES.contains version then acc ++ [version] else acc
          | .error _ => acc
        else acc)
      []

/-- The loop of `_extract_key_share_groups` (offset advances by ≥ 4). -/
def keyShareLoop (data : Bytes) (length : Nat) :
    Nat → Nat → List Nat → List Nat
  | 0, _, acc => acc
  | fuel + 1, offset, acc =>
    if offset + 4 ≤ data.length ∧ offset < 2 + length then
      match unpackBE2 (pySlice data offset (offset + 2)),
          unpackBE2 (pySlice data (offset + 2) (offset + 4)) with
      | .ok group, .ok key_len =>
        let acc := if ¬GREASE_VALUES.contains group then acc ++ [group] else acc
        keyShareLoop data length fuel (offset + 4 + key_len) acc
      | _, _ => acc
    else acc

/-- `_extract_key_share_groups`. -/
def extractKeyShareGroups (data : Bytes) : List Nat :=
  if data.length < 2 then []
  else
    match unpackBE2 (pySlice data 0 2) with
    | .ok length => keyShareLoop data length data.length 2 []
    | .error _ => []

/-- The cipher-suite loop of `_parse_client_hello_extended`:
`for i in range(0, cipher_suites_len, 2)` with a bounds break. -/
def chCipherLoop (data : Bytes) (offset : Nat) :
    Nat → Nat → List Nat → List Nat
  | 0, _, acc => acc
  | steps + 1, i, acc =>
    if offset + i + 2 > data.length then acc
    else
      match unpackBE2 (pySlice data (offset + i) (offset + i + 2)) with
      | .ok cs =>
        chCipherLoop data offset steps (i + 2)
          (if ¬GREASE_VALUES.contains cs then acc ++ [cs] else acc)
      | .error _ => acc

/-- The extension walk of `_parse_client_hello_extended` (offset advances
by `4 + ext_len ≥ 4` per iteration; the two header unpacks are in bounds by
the loop guard). -/
def chExtLoop (data : Bytes) :
    Nat → Nat → Nat → CHData → EtaStats → CHData × EtaStats
  | 0, _, _, r, stats => (r, stats)
  | fuel + 1, offset, ext_end, r, stats =>
    if offset + 4 ≤ ext_end ∧ offset + 4 ≤ data.length then
      match unpackBE2 (pySlice data offset (offset + 2)),
          unpackBE2 (pySlice data (offset + 2) (offset + 4)) with
      | .ok ext_type, .ok ext_len =>
        let offset := offset + 4
        let ext_data :=
          if offset + ext_len ≤ data.length then
            pySlice data offset (offset + ext_len)
          else []
        let r :=
          if ¬GREASE_VALUES.contains ext_type then
            { r with extensions := r.extensions ++ [ext_type] }
          else r
        let (r, stats) :=
          if ext_type = EXT_SNI ∧ ext_len > 5 then
            ({ r with sni := extractSni ext_data }, stats)
          else if ext_type = EXT_ALPN ∧ ext_len > 2 then
            ({ r with alpn := extractAlpn ext_data }, stats)
          else if ext_type = EXT_SUPPORTED_VERSIONS ∧ ext_len > 1 then
            ({ r with supported_versions := extractSupportedVersions ext_data }, stats)
          else if ext_type = EXT_KEY_SHARE ∧ ext_len > 2 then
            ({ r with key_share_groups := extractKeyShareGroups ext_data }, stats)
          else if ext_type = EXT_ESNI then
            ({ r with has_esni := true },
             { stats with esni_detected := stats.esni_detected + 1 })
          else if ext_type = EXT_ENCRYPTED_CLIENT_HELLO then
            ({ r with has_ech := true },
             { stats with ech_detected := stats.ech_detected + 1 })
          else (r, stats)
        chExtLoop data fuel (offset + ext_len) ext_end r stats
      | _, _ => (r, stats)
    else (r, stats)

/-- `_parse_client_hello_extended` (no raise can escape: every read is
behind a bounds guard; unreachable unpack failures return the partial
result). -/
def parseClientHelloExt (data : Bytes) (stats : EtaStats) :
    CHData × EtaStats :=
  let r : CHData := {}
  if data.length < 38 then (r, stats)
  else
    match unpackBE2 (pySlice data 0 2) with
    | .error _ => (r, stats)
    | .ok client_version =>
      let lv := tlsVersionGet client_version (hexStr client_version)
      let r := { r with legacy_version := some lv }
      match data.get? 34 with
      | none => (r, stats)
      | some session_id_len =>
        let offset := 35 + session_id_len
        if offset + 2 > data.length then (r, stats)
        else
          match unpackBE2 (pySlice data offset (offset + 2)) with
          | .error _ => (r, stats)
          | .ok cipher_suites_len =>
            let offset := offset + 2
            let suites := chCipherLoop data offset ((cipher_suites_len + 1) / 2) 0 []
            let r := { r with cipher_suites := suites }
            let offset := offset + cipher_suites_len
            if offset + 1 > data.length then (r, stats)
            else
              match data.get? offset with
              | none => (r, stats)
              | some compression_len =>
                let offset := offset + 1 + compression_len
                let (r, stats) :=
                  if offset + 2 ≤ data.length then
                    match unpackBE2 (pySlice data offset (offset + 2)) with
                    | .ok extensions_len =>
                      chExtLoop data data.length (offset + 2)
                        (offset + 2 + extensions_len) r stats
                    | .error _ => (r, stats)
                  else (r, stats)
                match r.supported_versions.maximum? with
                | some highest =>
                  let hv := tlsVersionGet highest (hexStr highest)
                  let r := { r with tls_version := some hv }
                  if highest = 0x0304 then
                    (r, { stats with tls13_sessions := stats.tls13_sessions + 1 })
                  else (r, stats)
                | none => ({ r with tls_version := r.legacy_version }, stats)

end ETA

end NetMon

namespace NetMon

namespace ETA

/-- `_parse_server_hello_extended`'s result dict (`is_weak_cipher` absent
reads as falsy, so a `Bool` default covers it). -/
structure SHData where
  cipher_suite : Option Nat := none
  cipher_name : String := "Unknown"
  tls_version : Option String := none
  extensions : List Nat := []
  legacy_version : Option String := none
  is_weak_cipher : Bool := false
  deriving DecidableEq, Repr

/-- The extension walk of `_parse_server_hello_extended`.  When a
`supported_versions` extension announces length 2 but the record is
truncated, `ext_data` is `b''` and `struct.unpack` raises — the one raise
that escapes this parser (caught in `analyze_packet`). -/
def shExtLoop (data : Bytes) :
    Nat → Nat → Nat → SHData → Except PyErr SHData
  | 0, _, _, r => .ok r
  | fuel + 1, offset, ext_end, r =>
    if offset + 4 ≤ ext_end ∧ offset + 4 ≤ data.length then
      match unpackBE2 (pySlice data offset (offset + 2)),
          unpackBE2 (pySlice data (offset + 2) (offset + 4)) with
      | .ok ext_type, .ok ext_len =>
        let offset := offset + 4
        let ext_data :=
          if offset + ext_len ≤ data.length then
            pySlice data offset (offset + ext_len)
          else []
        let r :=
          if ¬GREASE_VALUES.contains ext_type then
            { r with extensions := r.extensions ++ [ext_type] }
          else r
        if ext_type = EXT_SUPPORTED_VERSIONS ∧ ext_len = 2 then
          match unpackBE2 ext_data with
          | .ok actual_version =>
            let tv := tlsVersionGet actual_version (hexStr actual_version)
            shExtLoop data fuel (offset + ext_len) ext_end
              { r with tls_version := some tv }
          | .error e => .error e
        else shExtLoop data fuel (offset + ext_len) ext_end r
      | _, _ => .ok r
    else .ok r

/-- `_parse_server_hello_extended`. -/
def parseServerHelloExt (data : Bytes) : Except PyErr SHData := do
  let r : SHData := {}
  if data.length < 38 then return r
  match unpackBE2 (pySlice data 0 2) with
  | .error e => throw e
  | .ok server_version =>
    let lv := tlsVersionGet server_version (hexStr server_version)
    let r := { r with legacy_version := some lv }
    match data.get? 34 with
    | none => throw .indexError
    | some session_id_len =>
      let offset := 35 + session_id_len
      if offset + 2 > data.length then return r
      match unpackBE2 (pySlice data offset (offset + 2)) with
      | .error e => throw e
      | .ok cipher_suite =>
        let r := { r with cipher_suite := some cipher_suite }
        let r :=
          match WEAK_CIPHERS.lookup cipher_suite with
          | some name => { r with cipher_name := name, is_weak_cipher := true }
          | none =>
            match STRONG_CIPHERS.lookup cipher_suite with
            | some name => { r with cipher_name := name, is_weak_cipher := false }
            | none => { r with cipher_name := "Unknown (" ++ hexStr cipher_suite ++ ")"
                               is_weak_cipher := false }
        let offset := offset + 2 + 1
        let r ←
          if offset + 2 ≤ data.length then
            match unpackBE2 (pySlice data offset (offset + 2)) with
            | .error e => throw e
            | .ok extensions_len =>
              shExtLoop data data.length (offset + 2)
                (offset + 2 + extensions_len) r
          else pure r
        match r.tls_version with
        | some _ => return r
        | none => return { r with tls_version := r.legacy_version }

/-- A parsed certificate dict (`_parse_certificate`).  The validity window
is never parsed, so `is_expired` / `is_not_yet_valid` stay `False`. -/
structure CertRec where
  subject_cn : String := ""
  issuer_cn : String := ""
  issuer_org : String := ""
  is_self_signed : Bool := false
  is_expired : Bool := false
  is_not_yet_valid : Bool := false
  san_domains : List String := []
  key_size : Nat := 0
  is_leaf : Bool := true
  deriving DecidableEq, Repr

/-- `_extract_cn`. -/
def extractCn (data : Bytes) (oid : Bytes) : String :=
  match findSub data oid with
  | none => ""
  | some idx =>
    let idx := idx + oid.length + 2
    if idx ≥ data.length then ""
    else
      match data.get? idx with
      | none => ""
      | some str_len =>
        let idx := idx + 1
        if idx + str_len > data.length then ""
        else decodeUtf8Ignore (pySlice data idx (idx + str_len))

/-- The DNS-name scan of `_extract_san` (position advances by ≥ 1). -/
def sanLoop (sa : Bytes) : Nat → Nat → List String → List String
  | 0, _, acc => acc
  | fuel + 1, pos, acc =>
    if pos + 2 < sa.length then
      match sa.get? pos, sa.get? (pos + 1) with
      | some tag, some length =>
        if tag = 0x82 then
          let acc :=
            if pos + 2 + length ≤ sa.length then
              let domain := decodeUtf8Ignore (pySlice sa (pos + 2) (pos + 2 + length))
              if domain ≠ "" ∧ strContains domain "." then acc ++ [domain]
              else acc
            else acc
          sanLoop sa fuel (pos + 2 + length) acc
        else sanLoop sa fuel (pos + 1) acc
      | _, _ => acc
    else acc

/-- `_extract_san`. -/
def extractSan (data : Bytes) : List String :=
  match findSub data [0x55, 0x1d, 0x11] with
  | none => []
  | some idx =>
    let sa := pySlice data idx (min (idx + 500) data.length)
    (sanLoop sa sa.length 0 []).take 20

/-- `_parse_certificate`: the shallow OID scan.  Nothing in the body can
raise, so the `except → None` path never fires and the dict (truthy) is
always produced. -/
def parseCertificate (cert_data : Bytes) (is_leaf : Bool) : CertRec :=
  let subject_cn := extractCn cert_data [0x55, 0x04, 0x03]
  let issuer_org := extractCn cert_data [0x55, 0x04, 0x0a]
  let is_self_signed := subject_cn ≠ "" ∧ issuer_org ≠ "" ∧
    strContains (asciiLower issuer_org) (asciiLower subject_cn)
  { subject_cn := subject_cn
    issuer_org := issuer_org
    is_self_signed := is_self_signed
    san_domains := extractSan cert_data
    is_leaf := is_leaf }

/-- `_parse_certificate_message`'s result dict. -/
structure CertMsg where
  certificates : List CertRec := []
  has_self_signed : Bool := false
  has_expired : Bool := false
  chain_length : Nat := 0
  deriving DecidableEq, Repr

/-- The chain walk of `_parse_certificate_message` (offset advances by
≥ 3). -/
def certMsgLoop (data : Bytes) (certs_length : Nat) :
    Nat → Nat → Nat → CertMsg → EtaStats → CertMsg × EtaStats
  | 0, _, _, r, stats => (r, stats)
  | fuel + 1, offset, cert_index, r, stats =>
    if offset + 3 < data.length ∧ offset < 3 + certs_length then
      match unpackBE3 (pySlice data offset (offset + 3)) with
      | .ok cert_length =>
        let offset := offset + 3
        if offset + cert_length > data.length then (r, stats)
        else
          let cert_data := pySlice data offset (offset + cert_length)
          let cert_info := parseCertificate cert_data (cert_index = 0)
          let r := { r with certificates := r.certificates ++ [cert_info] }
          let (r, stats) :=
            if cert_info.is_self_signed then
              ({ r with has_self_signed := true },
               { stats with self_signed_certs := stats.self_signed_certs + 1 })
            else (r, stats)
          let (r, stats) :=
            if cert_info.is_expired then
              ({ r with has_expired := true },
               { stats with expired_certs := stats.expired_certs + 1 })
            else (r, stats)
          certMsgLoop data certs_length fuel (offset + cert_length)
            (cert_index + 1) r stats
      | .error _ => (r, stats)
    else (r, stats)

/-- `_parse_certificate_message`. -/
def parseCertificateMessage (data : Bytes) (stats : EtaStats) :
    CertMsg × EtaStats :=
  let r : CertMsg := {}
  if data.length < 3 then (r, stats)
  else
    match unpackBE3 (pySlice data 0 3) with
    | .error _ => (r, stats)
    | .ok certs_length =>
      let (r, stats) := certMsgLoop data certs_length data.length 3 0 r stats
      ({ r with chain_length := r.certificates.length }, stats)

/-- The handshake kind with its parsed body. -/
inductive EtaParsedKind : Type
  | clientHello (ch : CHData)
  | serverHello (sh : SHData)
  | certificate (cm : CertMsg)
  deriving DecidableEq, Repr

/-- A `_parse_tls_handshake` result dict. -/
structure EtaParsed where
  src_ip : String
  dst_ip : String
  src_port : Nat
  dst_port : Nat
  record_version : String
  kind : EtaParsedKind
  deriving DecidableEq, Repr

/-- `_parse_tls_handshake`.  The record-header reads are guarded; the only
raise that can escape comes from the Server Hello parser. -/
def parseTlsHandshake (data : Bytes) (src_ip dst_ip : String)
    (src_port dst_port : Nat) (stats : EtaStats) :
    Except PyErr (Option EtaParsed × EtaStats) := do
  if data.length < 9 then return (none, stats)
  let content_type ← pyGet data 0
  let tls_version ← unpackBE2 (pySlice data 1 3)
  let record_length ← unpackBE2 (pySlice data 3 5)
  if content_type ≠ 22 ∨ data.length < 5 + record_length then
    return (none, stats)
  let handshake_data := pySlice data 5 (5 + record_length)
  if handshake_data.length < 4 then return (none, stats)
  let handshake_type ← pyGet handshake_data 0
  let _handshake_length ← unpackBE3 (pySlice handshake_data 1 4)
  let record_version := tlsVersionGet tls_version
    ("Unknown (" ++ hexStr tls_version ++ ")")
  let mk (kind : EtaParsedKind) : EtaParsed :=
    { src_ip := src_ip, dst_ip := dst_ip, src_port := src_port,
      dst_port := dst_port, record_version := record_version, kind := kind }
  if handshake_type = 1 then
    let (ch, stats) := parseClientHelloExt (pyDrop handshake_data 4) stats
    return (some (mk (.clientHello ch)), stats)
  else if handshake_type = 2 then
    let sh ← parseServerHelloExt (pyDrop handshake_data 4)
    return (some (mk (.serverHello sh)), stats)
  else if handshake_type = 11 then
    let (cm, stats) := parseCertificateMessage (pyDrop handshake_data 4) stats
    return (some (mk (.certificate cm)), stats)
  else return (none, stats)

end ETA

end NetMon

namespace NetMon

namespace ETA

/-- `None`-aware `parsed.get(...)` rendered as a `details` value. -/
def optStrD : Option String → Detail
  | some s => .str s
  | none => .null

/-- `set.add` modelled as keep-first deduplication.  CPython's set order is
hash-dependent; only membership drives control flow below, and no claim
touches the order of the `cert_domains` detail. -/
def addUnique (xs : List String) (x : String) : List String :=
  if xs.contains x then xs else xs ++ [x]

/-- The `cert_domains` set of `_detect_domain_fronting`. -/
def certDomainsOf (certs : List CertRec) : List String :=
  certs.foldl (fun acc c =>
    let acc := if c.subject_cn ≠ "" then addUnique acc (asciiLower c.subject_cn) else acc
    c.san_domains.foldl (fun a s => addUnique a (asciiLower s)) acc) []

/-- `_analyze_client_hello` (also writes the session used later for
domain-fronting correlation). -/
def analyzeClientHello (st : ETAState) (p : EtaParsed) (ch : CHData)
    (now : ℚ) : ETAState × List Threat :=
  let src_ip := p.src_ip
  let dst_ip := p.dst_ip
  let threats : List Threat := []
  let threats := threats ++
    (if st.detect_esni_ech ∧ ch.has_esni then
      [{ typ := "ESNI_DETECTED", severity := "LOW",
         source_ip := src_ip, destination_ip := dst_ip,
         description := "Encrypted SNI (ESNI) detected - hostname hidden",
         details := [("tls_version", optStrD ch.tls_version),
           ("note", .str "ESNI hides the destination hostname, may indicate privacy tool or evasion")] }]
     else []) ++
    (if st.detect_esni_ech ∧ ch.has_ech then
      [{ typ := "ECH_DETECTED", severity := "LOW",
         source_ip := src_ip, destination_ip := dst_ip,
         description := "Encrypted Client Hello (ECH) detected",
         details := [("tls_version", optStrD ch.tls_version),
           ("note", .str "ECH encrypts entire Client Hello, may indicate privacy tool or evasion")] }]
     else [])
  let weak_offered := ch.cipher_suites.filter
    (fun cs => decide ((WEAK_CIPHERS.lookup cs).isSome = true))
  let strong_offered := ch.cipher_suites.filter
    (fun cs => decide ((STRONG_CIPHERS.lookup cs).isSome = true))
  let threats := threats ++
    (if st.detect_weak_ciphers ∧ weak_offered ≠ [] ∧ strong_offered = [] then
      [{ typ := "WEAK_CIPHERS_ONLY", severity := "MEDIUM",
         source_ip := src_ip, destination_ip := dst_ip,
         description := "Client only offers weak/deprecated cipher suites",
         details := [("weak_ciphers",
             .strs ((weak_offered.take 5).map (fun cs =>
               match WEAK_CIPHERS.lookup cs with
               | some n => n
               | none => hexStr cs))),
           ("sni", optStrD ch.sni)] }]
     else [])
  let threats := threats ++
    (match ch.tls_version with
     | some v =>
       if v = "TLS 1.0" ∨ v = "TLS 1.1" ∨ v = "SSL 3.0" then
        [{ typ := "LEGACY_TLS_VERSION", severity := "MEDIUM",
           source_ip := src_ip, destination_ip := dst_ip,
           description := "Legacy TLS version in use: " ++ v,
           details := [("version", .str v), ("sni", optStrD ch.sni),
             ("recommendation", .str "Upgrade to TLS 1.2 or TLS 1.3")] }]
       else []
     | none => [])
  let session_key := src_ip ++ ":" ++ dst_ip ++ ":" ++ natStr p.dst_port
  let sess : EtaSession :=
    { sni := ch.sni, client_hello_time := now, tls_version := ch.tls_version,
      has_esni := ch.has_esni, has_ech := ch.has_ech }
  ({ st with sessions := setA st.sessions session_key sess }, threats)

/-- `_analyze_server_hello`. -/
def analyzeServerHello (st : ETAState) (sh : SHData)
    (src_ip dst_ip : String) : ETAState × List Threat :=
  if st.detect_weak_ciphers ∧ sh.is_weak_cipher then
    let st := { st with stats :=
      { st.stats with weak_ciphers_detected := st.stats.weak_ciphers_detected + 1 } }
    (st, [{ typ := "WEAK_CIPHER_NEGOTIATED", severity := "HIGH",
            source_ip := src_ip, destination_ip := dst_ip,
            description := "Weak cipher suite negotiated: " ++ sh.cipher_name,
            details := [("cipher_suite", .str sh.cipher_name),
              ("cipher_id", .str (hexStr (sh.cipher_suite.getD 0))),
              ("tls_version", optStrD sh.tls_version),
              ("risk", .str "Traffic may be decrypted by attackers")] }])
  else (st, [])

/-- The `sessions.get(session_key, {}).get('sni', '')` read of
`_detect_domain_fronting`, with `None` collapsed to `''` (both falsy and
used identically afterwards). -/
def sessionSni (st : ETAState) (key : String) : String :=
  match lookupA st.sessions key with
  | some s => s.sni.getD ""
  | none => ""

/-- `_detect_domain_fronting`. -/
def detectDomainFronting (st : ETAState) (p : EtaParsed) (cm : CertMsg)
    (src_ip dst_ip : String) (now : ℚ) : ETAState × Option Threat :=
  if cm.certificates = [] then (st, none)
  else
    let cert_domains := certDomainsOf cm.certificates
    let sni := sessionSni st (dst_ip ++ ":" ++ src_ip ++ ":" ++ natStr p.src_port)
    if sni = "" ∨ cert_domains = [] then (st, none)
    else
      let sni_lower := asciiLower sni
      let sni_matches := cert_domains.any (fun domain =>
        (sni_lower = domain ∨ strEndsWith sni_lower ("." ++ domain)) ∨
        (strStartsWith domain "*." ∧
          strEndsWith sni_lower (String.mk (domain.data.drop 1))))
      if ¬sni_matches then
        let is_cdn := CDN_PROVIDERS.any (fun cdn => strContains sni_lower cdn)
        let st := { st with
          stats := { st.stats with
            domain_fronting_suspected := st.stats.domain_fronting_suspected + 1 },
          sni_host_mismatches := pushMax 500 st.sni_host_mismatches
            { time := now, sni := sni, cert_domains := cert_domains.take 5,
              src_ip := src_ip, dst_ip := dst_ip } }
        (st, some
          { typ := "DOMAIN_FRONTING_SUSPECTED",
            severity := if ¬is_cdn then "HIGH" else "MEDIUM",
            source_ip := src_ip, destination_ip := dst_ip,
            description := "Potential domain fronting: SNI \"" ++ sni ++
              "\" does not match certificate",
            details := [("sni", .str sni),
              ("cert_domains", .strs (cert_domains.take 5)),
              ("is_cdn", .bool is_cdn),
              ("note", .str "Domain fronting may indicate C2 evasion technique")] })
      else (st, none)

/-- `_analyze_certificate`. -/
def analyzeCertificate (st : ETAState) (p : EtaParsed) (cm : CertMsg)
    (src_ip dst_ip : String) (now : ℚ) : ETAState × List Threat :=
  let threats : List Threat := []
  let threats := threats ++
    (if st.detect_self_signed ∧ cm.has_self_signed then
      let leafDetails :=
        match cm.certificates with
        | [] => [("subject_cn", Detail.null), ("san_domains", Detail.strs [])]
        | c :: _ => [("subject_cn", Detail.str c.subject_cn),
                     ("san_domains", Detail.strs (c.san_domains.take 5))]
      [{ typ := "SELF_SIGNED_CERTIFICATE", severity := "MEDIUM",
         source_ip := src_ip, destination_ip := dst_ip,
         description := "Self-signed certificate detected",
         details := leafDetails ++ [("chain_length", .nat cm.chain_length),
           ("note", .str "May indicate MITM attack or test environment")] }]
     else [])
  let threats := threats ++
    (if st.detect_expired_certs ∧ cm.has_expired then
      [{ typ := "EXPIRED_CERTIFICATE", severity := "MEDIUM",
         source_ip := src_ip, destination_ip := dst_ip,
         description := "Expired TLS certificate detected",
         details := [("chain_length", .nat cm.chain_length),
           ("note", .str "Expired certificates may indicate misconfiguration or attack")] }]
     else [])
  if st.detect_domain_fronting then
    let (st, fr) := detectDomainFronting st p cm src_ip dst_ip now
    match fr with
    | some t => (st, threats ++ [t])
    | none => (st, threats)
  else (st, threats)

/-- `analyze_packet` of `EncryptedTrafficAnalyzer`.  The result type
records that the Python function could in principle raise to its caller;
the body shows it never does, because the `try` around the
parse-and-analyze block swallows every exception (the inner `Except`
computation marks where a raise actually occurs — the Server Hello
parser's `struct.unpack` on a truncated `supported_versions` record). -/
def analyzePacket (st : ETAState) (pkt : Packet) (now : ℚ) :
    Except PyErr (ETAState × List Threat) :=
  if ¬st.enabled then .ok (st, [])
  else if ¬(pkt.hasTCP ∧ pkt.hasRaw) then .ok (st, [])
  else if ¬pkt.hasIP then .ok (st, [])
  else
    let raw := pkt.payload
    if raw.length < 6 ∨ raw.get? 0 ≠ some 22 then .ok (st, [])
    else
      let st := { st with stats :=
        { st.stats with packets_analyzed := st.stats.packets_analyzed + 1 } }
      let attempt : Except PyErr (ETAState × List Threat) := do
        let (parsed, stats) ← parseTlsHandshake raw pkt.src_ip pkt.dst_ip
          pkt.sport pkt.dport st.stats
        let st := { st with stats := stats }
        match parsed with
        | none => return (st, [])
        | some p =>
          match p.kind with
          | .clientHello ch => return analyzeClientHello st p ch now
          | .serverHello sh => return analyzeServerHello st sh p.src_ip p.dst_ip
          | .certificate cm => return analyzeCertificate st p cm p.src_ip p.dst_ip now
      match attempt with
      | .ok r => .ok r
      | .error _ => .ok (st, [])

end ETA

end NetMon

namespace NetMon

namespace TLSA

/-! ## Embedding of `tls_analyzer.py` (class `TLSAnalyzer`)

`hashlib.md5` and `hashlib.sha256` are implemented in full (RFC 1321 /
FIPS 180-4) over byte lists, with 32-bit words as naturals masked to
`2^32 - 1`. -/

def mask32 : Nat := 4294967295

def not32 (x : Nat) : Nat := mask32 ^^^ x

def rotl32 (x n : Nat) : Nat := ((x <<< n) ||| (x >>> (32 - n))) &&& mask32

def rotr32 (x n : Nat) : Nat := ((x >>> n) ||| (x <<< (32 - n))) &&& mask32

/-- `k` bytes of `n`, least significant first. -/
def natLeBytes (n k : Nat) : Bytes :=
  (List.range k).map (fun i => (n >>> (8 * i)) &&& 0xff)

/-- `k` bytes of `n`, most significant first. -/
def natBeBytes (n k : Nat) : Bytes := (natLeBytes n k).reverse

/-- Little-endian 32-bit word at byte offset `j`. -/
def word32LE (b : Bytes) (j : Nat) : Nat :=
  b.getD j 0 + 256 * b.getD (j + 1) 0 + 65536 * b.getD (j + 2) 0 +
    16777216 * b.getD (j + 3) 0

/-- Big-endian 32-bit word at byte offset `j`. -/
def word32BE (b : Bytes) (j : Nat) : Nat :=
  16777216 * b.getD j 0 + 65536 * b.getD (j + 1) 0 + 256 * b.getD (j + 2) 0 +
    b.getD (j + 3) 0

def hexDigitChar (n : Nat) : Char :=
  if n < 10 then Char.ofNat (48 + n) else Char.ofNat (87 + n)

/-- One byte as two lowercase hex digits. -/
def hexByte (b : Nat) : String :=
  String.mk [hexDigitChar (b / 16 % 16), hexDigitChar (b % 16)]

/-- `.hexdigest()` rendering of a byte string. -/
def bytesHex (bs : Bytes) : String := String.join (bs.map hexByte)

/-- MD5 per-round shift amounts. -/
def MD5_S : List Nat :=
  [7, 12, 17, 22, 7, 12, 17, 22, 7, 12, 17, 22, 7, 12, 17, 22,
   5, 9, 14, 20, 5, 9, 14, 20, 5, 9, 14, 20, 5, 9, 14, 20,
   4, 11, 16, 23, 4, 11, 16, 23, 4, 11, 16, 23, 4, 11, 16, 23,
   6, 10, 15, 21, 6, 10, 15, 21, 6, 10, 15, 21, 6, 10, 15, 21]

/-- MD5 sine-derived constants. -/
def MD5_K : List Nat :=
  [0xd76aa478, 0xe8c7b756, 0x242070db, 0xc1bdceee,
   0xf57c0faf, 0x4787c62a, 0xa8304613, 0xfd469501,
   0x698098d8, 0x8b44f7af, 0xffff5bb1, 0x895cd7be,
   0x6b901122, 0xfd987193, 0xa679438e, 0x49b40821,
   0xf61e2562, 0xc040b340, 0x265e5a51, 0xe9b6c7aa,
   0xd62f105d, 0x02441453, 0xd8a1e681, 0xe7d3fbc8,
   0x21e1cde6, 0xc33707d6, 0xf4d50d87, 0x455a14ed,
   0xa9e3e905, 0xfcefa3f8, 0x676f02d9, 0x8d2a4c8a,
   0xfffa3942, 0x8771f681, 0x6d9d6122, 0xfde5380c,
   0xa4beea44, 0x4bdecfa9, 0xf6bb4b60, 0xbebfbc70,
   0x289b7ec6, 0xeaa127fa, 0xd4ef3085, 0x04881d05,
   0xd9d4d039, 0xe6db99e5, 0x1fa27cf8, 0xc4ac5665,
   0xf4292244, 0x432aff97, 0xab9423a7, 0xfc93a039,
   0x655b59c3, 0x8f0ccc92, 0xffeff47d, 0x85845dd1,
   0x6fa87e4f, 0xfe2ce6e0, 0xa3014314, 0x4e0811a1,
   0xf7537e82, 0xbd3af235, 0x2ad7d2bb, 0xeb86d391]

/-- One MD5 compression over a 64-byte chunk. -/
def md5Chunk (chunk : Bytes) (h : Nat × Nat × Nat × Nat) :
    Nat × Nat × Nat × Nat :=
  let (a0, b0, c0, d0) := h
  let final := (List.range 64).foldl
    (fun (s : Nat × Nat × Nat × Nat) i =>
      let (A, B, C, D) := s
      let Fg : Nat × Nat :=
        if i < 16 then ((B &&& C) ||| (not32 B &&& D), i)
        else if i < 32 then ((D &&& B) ||| (not32 D &&& C), (5 * i + 1) % 16)
        else if i < 48 then (B ^^^ C ^^^ D, (3 * i + 5) % 16)
        else (C ^^^ (B ||| not32 D), (7 * i) % 16)
      let F := (Fg.1 + A + MD5_K.getD i 0 + word32LE chunk (4 * Fg.2)) &&& mask32
      (D, (B + rotl32 F (MD5_S.getD i 0)) &&& mask32, B, C))
    (a0, b0, c0, d0)
  ((a0 + final.1) &&& mask32, (b0 + final.2.1) &&& mask32,
   (c0 + final.2.2.1) &&& mask32, (d0 + final.2.2.2) &&& mask32)

/-- MD5 padding: `0x80`, zeros to 56 mod 64, 64-bit little-endian bit
length. -/
def md5Pad (msg : Bytes) : Bytes :=
  let zeros := (120 - (msg.length + 1) % 64) % 64
  msg ++ [0x80] ++ List.replicate zeros 0 ++
    natLeBytes ((msg.length * 8) % 18446744073709551616) 8

/-- `hashlib.md5(msg).hexdigest()`. -/
def md5Hex (msg : Bytes) : String :=
  let padded := md5Pad msg
  let final := (List.range (padded.length / 64)).foldl
    (fun h i => md5Chunk (pySlice padded (64 * i) (64 * i + 64)) h)
    (0x67452301, 0xefcdab89, 0x98badcfe, 0x10325476)
  bytesHex (natLeBytes final.1 4 ++ natLeBytes final.2.1 4 ++
    natLeBytes final.2.2.1 4 ++ natLeBytes final.2.2.2 4)

/-- SHA-256 round constants (FIPS 180-4, here in decimal). -/
def SHA256_K : List Nat :=
  [1116352408, 1899447441, 3049323471, 3921009573, 961987163, 1508970993,
   2453635748, 2870763221, 3624381080, 310598401, 607225278, 1426881987,
   1925078388, 2162078206, 2614888103, 3248222580, 3835390401, 4022224774,
   264347078, 604807628, 770255983, 1249150122, 1555081692, 1996064986,
   2554220882, 2821834349, 2952996808, 3210313671, 3336571891, 3584528711,
   113926993, 338241895, 666307205, 773529912, 1294757372, 1396182291,
   1695183700, 1986661051, 2177026350, 2456956037, 2730485921, 2820302411,
   3259730800, 3345764771, 3516065817, 3600352804, 4094571909, 275423344,
   430227734, 506948616, 659060556, 883997877, 958139571, 1322822218,
   1537002063, 1747873779, 1955562222, 2024104815, 2227730452, 2361852424,
   2428436474, 2756734187, 3204031479, 3329325298]

/-- The SHA-256 message schedule of one chunk, as a 64-word list. -/
def sha256Schedule (chunk : Bytes) : List Nat :=
  let w0 := (List.range 16).map (fun i => word32BE chunk (4 * i))
  (List.range 48).foldl
    (fun w j =>
      let i := j + 16
      let x15 := w.getD (i - 15) 0
      let x2 := w.getD (i - 2) 0
      let s0 := rotr32 x15 7 ^^^ rotr32 x15 18 ^^^ (x15 >>> 3)
      let s1 := rotr32 x2 17 ^^^ rotr32 x2 19 ^^^ (x2 >>> 10)
      w ++ [(w.getD (i - 16) 0 + s0 + w.getD (i - 7) 0 + s1) &&& mask32])
    w0

/-- One SHA-256 compression over a 64-byte chunk (state as a list of the
eight working words). -/
def sha256Chunk (chunk : Bytes) (hs : List Nat) : List Nat :=
  let w := sha256Schedule chunk
  let final := (List.range 64).foldl
    (fun (s : List Nat) i =>
      match s with
      | [a, b, c, d, e, f, g, h] =>
        let S1 := rotr32 e 6 ^^^ rotr32 e 11 ^^^ rotr32 e 25
        let ch := (e &&& f) ^^^ (not32 e &&& g)
        let temp1 := (h + S1 + ch + SHA256_K.getD i 0 + w.getD i 0) &&& mask32
        let S0 := rotr32 a 2 ^^^ rotr32 a 13 ^^^ rotr32 a 22
        let maj := (a &&& b) ^^^ (a &&& c) ^^^ (b &&& c)
        let temp2 := (S0 + maj) &&& mask32
        [(temp1 + temp2) &&& mask32, a, b, c, (d + temp1) &&& mask32, e, f, g]
      | other => other)
    hs
  (List.range 8).map (fun i => (hs.getD i 0 + final.getD i 0) &&& mask32)

/-- SHA-256 padding: like MD5 but with a big-endian bit length. -/
def sha256Pad (msg : Bytes) : Bytes :=
  let zeros := (120 - (msg.length + 1) % 64) % 64
  msg ++ [0x80] ++ List.replicate zeros 0 ++
    natBeBytes ((msg.length * 8) % 18446744073709551616) 8

/-- `hashlib.sha256(msg).hexdigest()`. -/
def sha256Hex (msg : Bytes) : String :=
  let padded := sha256Pad msg
  let final := (List.range (padded.length / 64)).foldl
    (fun h i => sha256Chunk (pySlice padded (64 * i) (64 * i + 64)) h)
    [1779033703, 3144134277, 1013904242, 2773480762,
     1359893119, 2600822924, 528734635, 1541459225]
  bytesHex (final.foldl (fun acc hw => acc ++ natBeBytes hw 4) [])

end TLSA

end NetMon

namespace NetMon

namespace TLSA

def GREASE_VALUES : List Nat :=
  [0x0a0a, 0x1a1a, 0x2a2a, 0x3a3a, 0x4a4a, 0x5a5a,
   0x6a6a, 0x7a7a, 0x8a8a, 0x9a9a, 0xaaaa, 0xbaba,
   0xcaca, 0xdada, 0xeaea, 0xfafa]

def EXT_SNI : Nat := 0
def EXT_SUPPORTED_GROUPS : Nat := 10
def EXT_EC_POINT_FORMATS : Nat := 11
def EXT_ALPN : Nat := 16

/-- `KNOWN_MALICIOUS_JA3` as the dict the literal evaluates to: the hash
`51c64c...` appears twice in the source literal (TrickBot, then Dridex),
so the later value wins at its first-occurrence position. -/
def KNOWN_MALICIOUS_JA3 : List (String × String) :=
  [("72a589da586844d7f0818ce684948eea", "Cobalt Strike"),
   ("6734f37431670b3ab4292b8f60f29984", "Metasploit Meterpreter"),
   ("e7d705a3286e19ea42f587b344ee6865", "Empire"),
   ("51c64c77e60f3980eea90869b68c58a8", "Dridex"),
   ("4d7a28d6f2263ed61de88ca66eb2e04b", "Emotet")]

/-- `self.stats`. -/
structure TlsaStats where
  handshakes_analyzed : Nat := 0
  client_hellos : Nat := 0
  server_hellos : Nat := 0
  certificates_extracted : Nat := 0
  malicious_ja3_detected : Nat := 0
  deriving DecidableEq, Repr

/-- The mutable state of `TLSAnalyzer` under the default (empty) config.
`ja3_cache` and `connection_cache` are declared in `__init__` but never
touched on the analysis path, so they are omitted. -/
structure TlsaState where
  stats : TlsaStats := {}
  ja3_blacklist : List (String × String) := KNOWN_MALICIOUS_JA3
  deriving Repr

/-- `_version_string`. -/
def versionString (version : Nat) : String :=
  match [(0x0300, "SSL 3.0"), (0x0301, "TLS 1.0"), (0x0302, "TLS 1.1"),
      (0x0303, "TLS 1.2"), (0x0304, "TLS 1.3")].lookup version with
  | some s => s
  | none => "Unknown (" ++ hex4 version ++ ")"
where
  /-- `f'0x{n:04x}'`. -/
  hex4 (n : Nat) : String :=
    let ds := Nat.toDigits 16 n
    "0x" ++ String.mk (List.replicate (4 - ds.length) '0') ++ String.mk ds

/-- `_cipher_name`. -/
def cipherName (cipher : Nat) : String :=
  match [(0x1301, "TLS_AES_128_GCM_SHA256"),
      (0x1302, "TLS_AES_256_GCM_SHA384"),
      (0x1303, "TLS_CHACHA20_POLY1305_SHA256"),
      (0xc02f, "TLS_ECDHE_RSA_WITH_AES_128_GCM_SHA256"),
      (0xc030, "TLS_ECDHE_RSA_WITH_AES_256_GCM_SHA384"),
      (0xc02b, "TLS_ECDHE_ECDSA_WITH_AES_128_GCM_SHA256"),
      (0xc02c, "TLS_ECDHE_ECDSA_WITH_AES_256_GCM_SHA384"),
      (0x009c, "TLS_RSA_WITH_AES_128_GCM_SHA256"),
      (0x009d, "TLS_RSA_WITH_AES_256_GCM_SHA384"),
      (0x002f, "TLS_RSA_WITH_AES_128_CBC_SHA"),
      (0x0035, "TLS_RSA_WITH_AES_256_CBC_SHA"),
      (0xc013, "TLS_ECDHE_RSA_WITH_AES_128_CBC_SHA"),
      (0xc014, "TLS_ECDHE_RSA_WITH_AES_256_CBC_SHA")].lookup cipher with
  | some s => s
  | none => "Unknown (" ++ versionString.hex4 cipher ++ ")"

/-- The name scan of `_parse_sni` (position advances by ≥ 3; nothing in
the `try` can raise, every read is behind the `offset + 3 < len` guard). -/
def sniScan (d : Bytes) : Nat → Nat → Option String
  | 0, _ => none
  | fuel + 1, offset =>
    if offset + 3 < d.length then
      match d.get? offset, unpackBE2 (pySlice d (offset + 1) (offset + 3)) with
      | some name_type, .ok name_len =>
        let offset := offset + 3
        if name_type = 0 ∧ offset + name_len ≤ d.length then
          some (decodeUtf8Ignore (pySlice d offset (offset + name_len)))
        else sniScan d fuel (offset + name_len)
      | _, _ => none
    else none

/-- `_parse_sni`. -/
def parseSni (data : Bytes) : Option String :=
  if data.length < 2 then none
  else
    match unpackBE2 (pySlice data 0 2) with
    | .ok _list_len => sniScan data data.length 2
    | .error _ => none

/-- The protocol scan of `_parse_alpn` (position advances by ≥ 1). -/
def alpnScan (d : Bytes) (limit : Nat) : Nat → Nat → List String → List String
  | 0, _, acc => acc
  | fuel + 1, offset, acc =>
    if offset < limit ∧ offset < d.length then
      match d.get? offset with
      | some proto_len =>
        let offset := offset + 1
        let acc :=
          if offset + proto_len ≤ d.length then
            acc ++ [decodeUtf8Ignore (pySlice d offset (offset + proto_len))]
          else acc
        alpnScan d limit fuel (offset + proto_len) acc
      | none => acc
    else acc

/-- `_parse_alpn`. -/
def parseAlpn (data : Bytes) : List String :=
  if data.length < 2 then []
  else
    match unpackBE2 (pySlice data 0 2) with
    | .ok list_len => alpnScan data (2 + list_len) data.length 2 []
    | .error _ => []

/-- The supported-groups walk: `range(2, min(2 + groups_len, len), 2)`.
When the declared `groups_len` overruns an odd-length extension body, the
final two-byte `struct.unpack` reads a one-byte slice and raises — the one
unguarded raise in `_parse_client_hello`. -/
def sgLoop (ed : Bytes) (bound : Nat) :
    Nat → Nat → List Nat → Except PyErr (List Nat)
  | 0, _, acc => .ok acc
  | fuel + 1, i, acc =>
    if i < bound then
      match unpackBE2 (pySlice ed i (i + 2)) with
      | .error e => .error e
      | .ok group =>
        let acc := if ¬GREASE_VALUES.contains group then acc ++ [group] else acc
        sgLoop ed bound fuel (i + 2) acc
    else .ok acc

/-- The EC-point-formats walk: `range(1, min(1 + formats_len, len))`
(single-byte reads, all in bounds). -/
def ecLoop (ed : Bytes) (bound : Nat) :
    Nat → Nat → List Nat → List Nat
  | 0, _, acc => acc
  | fuel + 1, i, acc =>
    if i < bound then
      match ed.get? i with
      | some b => ecLoop ed bound fuel (i + 1) (acc ++ [b])
      | none => acc
    else acc

/-- The extension accumulators of `_parse_client_hello`.  A repeated
`supported_groups` or `ec_point_formats` extension appends to the same
list; `sni` and `alpn` assignments replace. -/
structure CHAcc where
  extensions : List Nat := []
  supported_groups : List Nat := []
  ec_point_formats : List Nat := []
  sni : Option String := none
  alpn : List String := []
  deriving DecidableEq, Repr

/-- The extension walk of `_parse_client_hello`. -/
def chExtWalk (data : Bytes) :
    Nat → Nat → Nat → CHAcc → Except PyErr CHAcc
  | 0, _, _, acc => .ok acc
  | fuel + 1, offset, ext_end, acc =>
    if offset + 4 ≤ ext_end ∧ offset + 4 ≤ data.length then
      match unpackBE2 (pySlice data offset (offset + 2)),
          unpackBE2 (pySlice data (offset + 2) (offset + 4)) with
      | .ok ext_type, .ok ext_len =>
        let offset := offset + 4
        let acc :=
          if ¬GREASE_VALUES.contains ext_type then
            { acc with extensions := acc.extensions ++ [ext_type] }
          else acc
        let ext_data :=
          if offset + ext_len ≤ data.length then
            pySlice data offset (offset + ext_len)
          else []
        if ext_type = EXT_SNI ∧ ext_data.length ≥ 5 then
          let acc := { acc with sni := parseSni ext_data }
          chExtWalk data fuel (offset + ext_len) ext_end acc
        else if ext_type = EXT_SUPPORTED_GROUPS ∧ ext_data.length ≥ 2 then
          match unpackBE2 (pySlice ext_data 0 2) with
          | .error e => .error e
          | .ok groups_len =>
            match sgLoop ext_data (min (2 + groups_len) ext_data.length)
                ext_data.length 2 acc.supported_groups with
            | .error e => .error e
            | .ok groups =>
              let acc := { acc with supported_groups := groups }
              chExtWalk data fuel (offset + ext_len) ext_end acc
        else if ext_type = EXT_EC_POINT_FORMATS ∧ ext_data.length ≥ 1 then
          match ext_data.get? 0 with
          | none => .ok acc
          | some formats_len =>
            let fmts := ecLoop ext_data (min (1 + formats_len) ext_data.length)
              ext_data.length 1 acc.ec_point_formats
            let acc := { acc with ec_point_formats := fmts }
            chExtWalk data fuel (offset + ext_len) ext_end acc
        else if ext_type = EXT_ALPN ∧ ext_data.length ≥ 2 then
          let acc := { acc with alpn := parseAlpn ext_data }
          chExtWalk data fuel (offset + ext_len) ext_end acc
        else chExtWalk data fuel (offset + ext_len) ext_end acc
      | _, _ => .ok acc
    else .ok acc

/-- The cipher-suite walk of `_parse_client_hello`
(`range(0, cipher_suites_len, 2)` with a bounds `break`). -/
def csLoop (data : Bytes) (offset : Nat) :
    Nat → Nat → List Nat → List Nat
  | 0, _, acc => acc
  | fuel + 1, i, acc =>
    if offset + i + 2 > data.length then acc
    else
      match unpackBE2 (pySlice data (offset + i) (offset + i + 2)) with
      | .ok cs =>
        let acc := if ¬GREASE_VALUES.contains cs then acc ++ [cs] else acc
        csLoop data offset fuel (i + 2) acc
      | .error _ => acc

/-- `_parse_client_hello`'s result dict. -/
structure CHRes where
  tls_version : String
  ja3 : String
  ja3_string : String
  cipher_suites : List Nat
  extensions : List Nat
  supported_groups : List Nat
  ec_point_formats : List Nat
  sni : Option String
  alpn : List String
  deriving DecidableEq, Repr

/-- `_parse_client_hello` (JA3 computation). -/
def parseClientHello (data : Bytes) : Except PyErr (Option CHRes) := do
  if data.length < 38 then return none
  match unpackBE2 (pySlice data 0 2) with
  | .error e => throw e
  | .ok client_version =>
    match data.get? 34 with
    | none => throw .indexError
    | some session_id_len =>
      let offset := 35 + session_id_len
      if offset + 2 > data.length then return none
      match unpackBE2 (pySlice data offset (offset + 2)) with
      | .error e => throw e
      | .ok cipher_suites_len =>
        let offset := offset + 2
        let cipher_suites :=
          csLoop data offset ((cipher_suites_len + 1) / 2) 0 []
        let offset := offset + cipher_suites_len
        if offset + 1 > data.length then return none
        match data.get? offset with
        | none => throw .indexError
        | some compression_len =>
          let offset := offset + 1 + compression_len
          let acc : CHAcc := {}
          let acc ←
            if offset + 2 ≤ data.length then
              match unpackBE2 (pySlice data offset (offset + 2)) with
              | .error e => throw e
              | .ok extensions_len =>
                chExtWalk data data.length (offset + 2)
                  (offset + 2 + extensions_len) acc
            else pure acc
          let ja3_string := String.intercalate ","
            [natStr client_version,
             String.intercalate "-" (cipher_suites.map natStr),
             String.intercalate "-" (acc.extensions.map natStr),
             String.intercalate "-" (acc.supported_groups.map natStr),
             String.intercalate "-" (acc.ec_point_formats.map natStr)]
          return some
            { tls_version := versionString client_version,
              ja3 := md5Hex (asciiBytes ja3_string),
              ja3_string := ja3_string,
              cipher_suites := cipher_suites,
              extensions := acc.extensions,
              supported_groups := acc.supported_groups,
              ec_point_formats := acc.ec_point_formats,
              sni := acc.sni,
              alpn := acc.alpn }

end TLSA

end NetMon

namespace NetMon

namespace TLSA

/-- The extension walk of `_parse_server_hello` (collects non-GREASE
extension types; every read is behind the loop guard). -/
def shExtWalk (data : Bytes) : Nat → Nat → Nat → List Nat → List Nat
  | 0, _, _, acc => acc
  | fuel + 1, offset, ext_end, acc =>
    if offset + 4 ≤ ext_end ∧ offset + 4 ≤ data.length then
      match unpackBE2 (pySlice data offset (offset + 2)),
          unpackBE2 (pySlice data (offset + 2) (offset + 4)) with
      | .ok ext_type, .ok ext_len =>
        let acc :=
          if ¬GREASE_VALUES.contains ext_type then acc ++ [ext_type] else acc
        shExtWalk data fuel (offset + 4 + ext_len) ext_end acc
      | _, _ => acc
    else acc

/-- `_parse_server_hello`'s result dict. -/
structure SHRes where
  tls_version : String
  cipher_suite : Nat
  cipher_suite_name : String
  ja3s : String
  ja3s_string : String
  extensions : List Nat
  deriving DecidableEq, Repr

/-- `_parse_server_hello` (JA3S computation; total — every read is
guarded). -/
def parseServerHello (data : Bytes) : Option SHRes :=
  if data.length < 38 then none
  else
    match unpackBE2 (pySlice data 0 2), data.get? 34 with
    | .ok server_version, some session_id_len =>
      let offset := 35 + session_id_len
      if offset + 2 > data.length then none
      else
        match unpackBE2 (pySlice data offset (offset + 2)) with
        | .error _ => none
        | .ok cipher_suite =>
          let offset := offset + 2 + 1
          let extensions :=
            if offset + 2 ≤ data.length then
              match unpackBE2 (pySlice data offset (offset + 2)) with
              | .ok extensions_len =>
                shExtWalk data data.length (offset + 2)
                  (offset + 2 + extensions_len) []
              | .error _ => []
            else []
          let ja3s_string := String.intercalate ","
            [natStr server_version, natStr cipher_suite,
             String.intercalate "-" (extensions.map natStr)]
          some { tls_version := versionString server_version,
                 cipher_suite := cipher_suite,
                 cipher_suite_name := cipherName cipher_suite,
                 ja3s := md5Hex (asciiBytes ja3s_string),
                 ja3s_string := ja3s_string,
                 extensions := extensions }
    | _, _ => none

/-- The fields the `cryptography` path of `_extract_cert_info` produces
(already rendered to strings, as the Python code does immediately). -/
structure X509Cert where
  subject : String
  issuer : String
  serial_number : String
  not_before : String
  not_after : String
  signature_algorithm : String
  public_key_size : Option Nat
  deriving DecidableEq, Repr

/-- The outcome of the `cryptography` library call inside
`_extract_cert_info`: the import may fail, the DER parse may fail, or a
certificate comes back.  The library is outside the program, so it enters
the model as an oracle. -/
inductive X509Outcome : Type
  | importError
  | failed (msg : String)
  | parsed (c : X509Cert)
  deriving DecidableEq, Repr

/-- The environment of `TLSAnalyzer`: the `cryptography` oracle. -/
structure TlsaEnv where
  x509 : Bytes → X509Outcome

/-- One certificate record of `_parse_certificate`'s result: the full
library-parsed form, or the hash fallback (with `parse_error` on a parse
failure, without on `ImportError`). -/
inductive CertInfo : Type
  | parsedC (index : Nat) (c : X509Cert)
  | fallback (index raw_length : Nat) (sha256 : String) (parse_error : Option String)
  deriving DecidableEq, Repr

/-- `_extract_cert_info` (total: its `try` maps both failure modes to the
fallback dict). -/
def extractCertInfo (env : TlsaEnv) (cert_data : Bytes) (index : Nat) :
    CertInfo :=
  match env.x509 cert_data with
  | .parsed c => .parsedC index c
  | .importError => .fallback index cert_data.length (sha256Hex cert_data) none
  | .failed msg =>
    .fallback index cert_data.length (sha256Hex cert_data) (some msg)

/-- `_parse_certificate`'s result dict. -/
structure CertRes where
  certificates : List CertInfo
  certificate_chain_length : Nat
  deriving DecidableEq, Repr

/-- The chain walk of `_parse_certificate`
(`while offset + 3 < 3 + certs_len and offset + 3 < len(data)`). -/
def certWalk (env : TlsaEnv) (data : Bytes) (certs_len : Nat) :
    Nat → Nat → Nat → List CertInfo → List CertInfo
  | 0, _, _, acc => acc
  | fuel + 1, offset, cert_index, acc =>
    if offset + 3 < 3 + certs_len ∧ offset + 3 < data.length then
      match unpackBE3 (pySlice data offset (offset + 3)) with
      | .error _ => acc
      | .ok cert_len =>
        let offset := offset + 3
        if offset + cert_len > data.length then acc
        else
          let cert_data := pySlice data offset (offset + cert_len)
          let acc := acc ++ [extractCertInfo env cert_data cert_index]
          certWalk env data certs_len fuel (offset + cert_len)
            (cert_index + 1) acc
    else acc

/-- `_parse_certificate` of `TLSAnalyzer` (total; `None` when the length
prefix overruns the data or the chain is empty). -/
def parseCertificate (env : TlsaEnv) (data : Bytes) : Option CertRes :=
  if data.length < 3 then none
  else
    match unpackBE3 (pySlice data 0 3) with
    | .error _ => none
    | .ok certs_len =>
      if data.length < 3 + certs_len then none
      else
        let certs := certWalk env data certs_len data.length 3 0 []
        if certs = [] then none
        else some { certificates := certs,
                    certificate_chain_length := certs.length }

/-- A `_parse_tls_record` result dict.  Optional fields are keys the
update branches may add; `handshake_type` stays `none` when the sub-parser
returns `None` (the base dict is still returned then). -/
structure TlsMeta where
  timestamp : String
  src_ip : String
  dst_ip : String
  src_port : Nat
  dst_port : Nat
  tls_record_version : String
  handshake_type : Option String := none
  clientHello : Option CHRes := none
  serverHello : Option SHRes := none
  certificate : Option CertRes := none
  malicious : Bool := false
  malware_family : Option String := none
  deriving DecidableEq, Repr

/-- `_parse_tls_record`.  The state is threaded separately from the
`Except` so that a raise keeps the stats bumps already made, as the Python
in-place mutation does.  Raise points: `packet[IP]` when the packet has no
IP layer, and the supported-groups walk of `_parse_client_hello`. -/
def parseTlsRecord (env : TlsaEnv) (st : TlsaState) (pkt : Packet)
    (data : Bytes) (ts : String) :
    TlsaState × Except PyErr (Option TlsMeta) :=
  if data.length < 5 then (st, .ok none)
  else
    match pyGet data 0, unpackBE2 (pySlice data 1 3),
        unpackBE2 (pySlice data 3 5) with
    | .ok content_type, .ok tls_version, .ok record_length =>
      if content_type ≠ 22 then (st, .ok none)
      else if data.length < 5 + record_length then (st, .ok none)
      else
        let handshake_data := pySlice data 5 (5 + record_length)
        if handshake_data.length < 4 then (st, .ok none)
        else
          match pyGet handshake_data 0,
              unpackBE3 (pySlice handshake_data 1 4) with
          | .ok handshake_type, .ok _handshake_length =>
            if ¬pkt.hasIP then (st, .error .indexError)
            else
              let base : TlsMeta :=
                { timestamp := ts, src_ip := pkt.src_ip, dst_ip := pkt.dst_ip,
                  src_port := pkt.sport, dst_port := pkt.dport,
                  tls_record_version := versionString tls_version }
              let st := { st with stats := { st.stats with
                handshakes_analyzed := st.stats.handshakes_analyzed + 1 } }
              if handshake_type = 1 then
                match parseClientHello (pyDrop handshake_data 4) with
                | .error e => (st, .error e)
                | .ok none => (st, .ok (some base))
                | .ok (some ch) =>
                  let r := { base with clientHello := some ch,
                                       handshake_type := some "client_hello" }
                  let st := { st with stats := { st.stats with
                    client_hellos := st.stats.client_hellos + 1 } }
                  if ch.ja3 ≠ "" then
                    match lookupA st.ja3_blacklist ch.ja3 with
                    | some fam =>
                      let r := { r with malicious := true,
                                        malware_family := some fam }
                      let st := { st with stats := { st.stats with
                        malicious_ja3_detected :=
                          st.stats.malicious_ja3_detected + 1 } }
                      (st, .ok (some r))
                    | none => (st, .ok (some r))
                  else (st, .ok (some r))
              else if handshake_type = 2 then
                match parseServerHello (pyDrop handshake_data 4) with
                | none => (st, .ok (some base))
                | some sh =>
                  let r := { base with serverHello := some sh,
                                       handshake_type := some "server_hello" }
                  let st := { st with stats := { st.stats with
                    server_hellos := st.stats.server_hellos + 1 } }
                  (st, .ok (some r))
              else if handshake_type = 11 then
                match parseCertificate env (pyDrop handshake_data 4) with
                | none => (st, .ok (some base))
                | some cr =>
                  let r := { base with certificate := some cr,
                                       handshake_type := some "certificate" }
                  let st := { st with stats := { st.stats with
                    certificates_extracted :=
                      st.stats.certificates_extracted + 1 } }
                  (st, .ok (some r))
              else (st, .ok none)
          | _, _ => (st, .ok none)
    | _, _, _ => (st, .ok none)

/-- `TLSAnalyzer.analyze_packet`.  The result type records that the
Python function could in principle raise to its caller; the body shows it
never does — the `try` around `_parse_tls_record` swallows everything. -/
def analyzePacket (env : TlsaEnv) (st : TlsaState) (pkt : Packet)
    (ts : String) : Except PyErr (TlsaState × Option TlsMeta) :=
  if ¬(pkt.hasTCP ∧ pkt.hasRaw) then .ok (st, none)
  else
    let raw := pkt.payload
    if raw.length < 6 ∨ raw.get? 0 ≠ some 22 then .ok (st, none)
    else
      match parseTlsRecord env st pkt raw ts with
      | (st, .ok m) => .ok (st, m)
      | (st, .error _) => .ok (st, none)

end TLSA

end NetMon

namespace NetMon

namespace ETA

/-- A complete TLS record carrying a Server Hello negotiated at TLS 1.0
(version bytes `03 01`) with the strong cipher 0xc02f and no extensions. -/
def shLegacyPayload : Bytes :=
  [22, 3, 1, 0, 42, 2, 0, 0, 38, 3, 1] ++ List.replicate 32 0 ++
    [0, 0xc0, 0x2f, 0]

/-- The packet carrying `shLegacyPayload`. -/
def shLegacyPkt : Packet :=
  { src_ip := "10.0.0.2", dst_ip := "10.0.0.1", sport := 443, dport := 55000,
    payload := shLegacyPayload }

/-- C6 (counterexample): a Server Hello whose negotiated TLS version is
the legacy "TLS 1.0" produces NO threat at all from `analyze_packet` — in
particular no MEDIUM legacy-version event.  The first conjunct shows the
parsed negotiated version really is TLS 1.0. -/
theorem server_hello_legacy_version_no_event :
    (parseServerHelloExt (pyDrop shLegacyPayload 9)).map SHData.tls_version =
      .ok (some "TLS 1.0") ∧
    (analyzePacket {} shLegacyPkt 1000).map Prod.snd = .ok [] := by
  with_unfolding_all decide

/-- Helper for C6: the threat types and severities `_analyze_server_hello`
can emit — exactly one `WEAK_CIPHER_NEGOTIATED` (HIGH) when a weak cipher
was negotiated and weak-cipher detection is on, and nothing otherwise. -/
theorem analyzeServerHello_types (st : ETAState) (sh : SHData)
    (src dst : String) :
    ((analyzeServerHello st sh src dst).2.map Threat.typ =
      if st.detect_weak_ciphers ∧ sh.is_weak_cipher then
        ["WEAK_CIPHER_NEGOTIATED"] else []) ∧
    ((analyzeServerHello st sh src dst).2.all
      (fun t => decide (t.severity = "HIGH"))) = true := by
  unfold analyzeServerHello
  split <;> simp_all

set_option maxHeartbeats 1000000 in
/-- Helper for C6: `_analyze_client_hello` emits exactly one MEDIUM
`LEGACY_TLS_VERSION` event precisely when the effective client TLS version
is TLS 1.0, TLS 1.1 or SSL 3.0. -/
theorem analyzeClientHello_legacy_count (st : ETAState) (p : EtaParsed)
    (ch : CHData) (now : ℚ) :
    ((analyzeClientHello st p ch now).2.countP
        (fun t => decide (t.typ = "LEGACY_TLS_VERSION" ∧ t.severity = "MEDIUM"))) =
      if ch.tls_version = some "TLS 1.0" ∨ ch.tls_version = some "TLS 1.1" ∨
          ch.tls_version = some "SSL 3.0" then 1 else 0 := by
  unfold analyzeClientHello
  dsimp only
  rcases hv : ch.tls_version with _ | v <;>
    simp only [hv, List.countP_append] <;>
    repeat' split
  all_goals simp_all [List.countP_cons, List.countP_nil]

/-- C6 (amended): Server Hello analysis emits only the HIGH
`WEAK_CIPHER_NEGOTIATED` event (never a legacy-version event); the MEDIUM
`LEGACY_TLS_VERSION` event is emitted by Client Hello analysis, exactly
when the client's effective TLS version is TLS 1.0, TLS 1.1 or SSL 3.0. -/
theorem legacy_tls_event_from_client_hello_only :
    (∀ (st : ETAState) (sh : SHData) (src dst : String),
      ((analyzeServerHello st sh src dst).2.map Threat.typ =
        if st.detect_weak_ciphers ∧ sh.is_weak_cipher then
          ["WEAK_CIPHER_NEGOTIATED"] else []) ∧
      ((analyzeServerHello st sh src dst).2.all
        (fun t => decide (t.severity = "HIGH"))) = true) ∧
    (∀ (st : ETAState) (p : EtaParsed) (ch : CHData) (now : ℚ),
      ((analyzeClientHello st p ch now).2.countP
          (fun t => decide (t.typ = "LEGACY_TLS_VERSION" ∧
            t.severity = "MEDIUM"))) =
        if ch.tls_version = some "TLS 1.0" ∨ ch.tls_version = some "TLS 1.1" ∨
            ch.tls_version = some "SSL 3.0" then 1 else 0) :=
  ⟨fun st sh src dst => analyzeServerHello_types st sh src dst,
   fun st p ch now => analyzeClientHello_legacy_count st p ch now⟩

end ETA

end NetMon

namespace NetMon

namespace ETA

/-- Helper for C7: `_analyze_client_hello` never emits an
`EXPIRED_CERTIFICATE` event. -/
theorem analyzeClientHello_all_not_expired (st : ETAState) (p : EtaParsed)
    (ch : CHData) (now : ℚ) :
    ((analyzeClientHello st p ch now).2.all
      (fun t => decide (t.typ ≠ "EXPIRED_CERTIFICATE"))) = true := by
  unfold analyzeClientHello
  dsimp only
  rcases hv : ch.tls_version with _ | v <;>
    simp only [hv, List.all_append] <;>
    repeat' split
  all_goals simp

/-- Helper for C7: `_analyze_server_hello` never emits an
`EXPIRED_CERTIFICATE` event. -/
theorem analyzeServerHello_all_not_expired (st : ETAState) (sh : SHData)
    (src dst : String) :
    ((analyzeServerHello st sh src dst).2.all
      (fun t => decide (t.typ ≠ "EXPIRED_CERTIFICATE"))) = true := by
  unfold analyzeServerHello
  split <;> simp

/-- Helper for C7: any threat produced by `_detect_domain_fronting` has
type `DOMAIN_FRONTING_SUSPECTED`. -/
theorem detectDomainFronting_typ (st : ETAState) (p : EtaParsed)
    (cm : CertMsg) (src dst : String) (now : ℚ) (t : Threat) :
    (detectDomainFronting st p cm src dst now).2 = some t →
    t.typ = "DOMAIN_FRONTING_SUSPECTED" := by
  unfold detectDomainFronting
  dsimp only
  intro h
  repeat' split at h
  all_goals first
    | exact Option.noConfusion h
    | (injection h with h1; rw [← h1])

/-- Helper for C7: with the parsed message's `has_expired` false,
`_analyze_certificate` never emits an `EXPIRED_CERTIFICATE` event. -/
theorem analyzeCertificate_all_not_expired (st : ETAState) (p : EtaParsed)
    (cm : CertMsg) (src dst : String) (now : ℚ)
    (h : cm.has_expired = false) :
    ((analyzeCertificate st p cm src dst now).2.all
      (fun t => decide (t.typ ≠ "EXPIRED_CERTIFICATE"))) = true := by
  unfold analyzeCertificate
  dsimp only
  simp only [h, Bool.false_eq_true, and_false, if_false]
  split
  · split
    · rename_i t heq
      have ht := detectDomainFronting_typ _ _ _ _ _ _ _ heq
      repeat' split
      all_goals simp_all [List.all_append]
    · repeat' split
      all_goals simp_all [List.all_append]
  · repeat' split
    all_goals simp_all [List.all_append]

/-- Helper for C7: `_parse_certificate_message` never reports an expired
chain — `_parse_certificate` leaves every certificate's `is_expired` at its
`False` initial value (the validity window is never parsed). -/
theorem parseCertificateMessage_not_expired (data : Bytes)
    (stats : EtaStats) :
    (parseCertificateMessage data stats).1.has_expired = false := by
  unfold parseCertificateMessage
  dsimp only
  split
  · rfl
  · split
    · rfl
    · refine (?_ : ∀ (fuel off idx : Nat) (r : CertMsg) (stats : EtaStats),
        r.has_expired = false →
        (certMsgLoop data _ fuel off idx r stats).1.has_expired = false)
        _ _ _ _ _ rfl
      intro fuel
      induction fuel with
      | zero => intro off idx r stats h; exact h
      | succ n ih =>
        intro off idx r stats h
        unfold certMsgLoop
        dsimp only
        split
        · split
          · split
            · exact h
            · rw [show ∀ d l, (parseCertificate d l).is_expired = false
                    from fun d l => rfl]
              simp only [Bool.false_eq_true, if_false]
              split
              · exact ih _ _ _ _ h
              · exact ih _ _ _ _ h
          · exact h
        · exact h

/-- Helper for C7: a Certificate handshake parsed by
`_parse_tls_handshake` always carries `has_expired = False`. -/
theorem parseTlsHandshake_certificate_not_expired (data : Bytes)
    (si di : String) (sp dp : Nat) (stats stats2 : EtaStats)
    (p : EtaParsed) (cm : CertMsg) :
    parseTlsHandshake data si di sp dp stats = .ok (some p, stats2) →
    p.kind = .certificate cm → cm.has_expired = false := by
  unfold parseTlsHandshake
  intro h hk
  simp only [bind, Except.bind, pure, Except.pure] at h
  repeat' split at h
  all_goals (try exact Except.noConfusion h)
  all_goals (injection h with h1; try injection h1 with hp hs)
  all_goals (try exact Option.noConfusion hp)
  all_goals (injection hp with hp2; subst hp2; simp only at hk)
  all_goals (try exact EtaParsedKind.noConfusion hk)
  all_goals (injection hk with hkc; rw [← hkc]; exact parseCertificateMessage_not_expired _ _)

/-- Helper for C7: no run of `analyze_packet` ever returns an
`EXPIRED_CERTIFICATE` threat. -/
theorem analyzePacket_all_not_expired (st : ETAState) (pkt : Packet)
    (now : ℚ) :
    (analyzePacket st pkt now).map
      (fun r => r.2.all (fun t => decide (t.typ ≠ "EXPIRED_CERTIFICATE"))) =
      .ok true := by
  unfold analyzePacket
  dsimp only
  split
  · rfl
  split
  · rfl
  split
  · rfl
  split
  · rfl
  split
  · rename_i r heq
    simp only [Except.map]
    simp only [bind, Except.bind, pure, Except.pure] at heq
    repeat' split at heq
    all_goals (try exact Except.noConfusion heq)
    all_goals (injection heq with h1; rw [← h1])
    · rfl
    · exact congrArg Except.ok (analyzeClientHello_all_not_expired _ _ _ _)
    · exact congrArg Except.ok (analyzeServerHello_all_not_expired _ _ _ _)
    · rename_i v hX parsed p hp1 x cm hk
      have hv2 : v = (some p, v.2) := by rw [← hp1]
      rw [hv2] at hX
      exact congrArg Except.ok
        (analyzeCertificate_all_not_expired _ _ _ _ _ _
          (parseTlsHandshake_certificate_not_expired _ _ _ _ _ _ _ _ _ hX hk))
  · rfl

/-- C7: the expired-certificate detection path is dead code.
`_parse_certificate` initialises `is_expired` to `False` and never parses
the validity window, so `_parse_certificate_message` can never set
`has_expired`, and `analyze_packet` can never emit the MEDIUM
`EXPIRED_CERTIFICATE` event the spec promises for chains with an expired
member — for ANY input packet. -/
theorem expired_certificate_unreachable :
    (∀ (data : Bytes) (stats : EtaStats),
      (parseCertificateMessage data stats).1.has_expired = false) ∧
    (∀ (st : ETAState) (pkt : Packet) (now : ℚ),
      (analyzePacket st pkt now).map
        (fun r => r.2.all (fun t => decide (t.typ ≠ "EXPIRED_CERTIFICATE"))) =
        .ok true) :=
  ⟨fun data stats => parseCertificateMessage_not_expired data stats,
   fun st pkt now => analyzePacket_all_not_expired st pkt now⟩

end ETA

end NetMon

namespace NetMon

namespace ETA

/-- The SPEC's CDN criterion, as worded: the SNI's domain matches a known
CDN provider SUFFIX from the fixed table (the domain is a provider entry
or ends in `"." ++ entry`).  Written from the spec for comparison with the
code's substring test; not a translation of any source function. -/
def specCdnSuffixMatch (sni : String) : Bool :=
  CDN_PROVIDERS.any (fun cdn => sni = cdn || strEndsWith sni ("." ++ cdn))

/-- A Client Hello record (TLS 1.2, strong cipher 0xc02f) whose SNI
extension carries `akamaized.net.evil.com` — a hostname that merely
CONTAINS the CDN string `akamaized.net`, without being a suffix match. -/
def c8chPayload : Bytes :=
  [22, 3, 1, 0, 78, 1, 0, 0, 74, 3, 3] ++ List.replicate 32 0 ++
    [0, 0, 2, 0xc0, 0x2f, 1, 0, 0, 31, 0, 0, 0, 27, 0, 25, 0, 0, 22] ++
    asciiBytes "akamaized.net.evil.com"

/-- A Certificate record on the reverse flow whose single certificate has
only the SAN `static.example.org` (no subject/issuer OIDs), so the SNI
cannot match it. -/
def c8certPayload : Bytes :=
  [22, 3, 3, 0, 33, 11, 0, 0, 29, 0, 0, 26, 0, 0, 23,
   0x55, 0x1d, 0x11, 0x82, 18] ++ asciiBytes "static.example.org"

def c8pkt1 : Packet :=
  { src_ip := "1.2.3.4", dst_ip := "5.6.7.8", sport := 55000, dport := 443,
    payload := c8chPayload }

def c8pkt2 : Packet :=
  { src_ip := "5.6.7.8", dst_ip := "1.2.3.4", sport := 443, dport := 55000,
    payload := c8certPayload }

/-- The threats of the second packet after feeding the Client Hello and
then the reverse-flow Certificate through `analyze_packet`. -/
def c8run : List Threat :=
  match analyzePacket {} c8pkt1 1000 with
  | .ok (st1, _) =>
    (match analyzePacket st1 c8pkt2 1001 with
     | .ok (_, ts) => ts
     | .error _ => [])
  | .error _ => []

/-- C8 (counterexample): the code downgrades to MEDIUM on a SUBSTRING
test (`cdn in sni_lower`), not the suffix match the spec states: the SNI
`akamaized.net.evil.com` matches no CDN provider suffix, yet its
`DOMAIN_FRONTING_SUSPECTED` event is emitted with severity MEDIUM because
the SNI merely contains `akamaized.net`. -/
theorem domain_fronting_cdn_substring_not_suffix :
    c8run.map (fun t => (t.typ, t.severity)) =
      [("DOMAIN_FRONTING_SUSPECTED", "MEDIUM")] ∧
    specCdnSuffixMatch (asciiLower "akamaized.net.evil.com") = false := by
  with_unfolding_all decide

/-- Helper for C8: every `DOMAIN_FRONTING_SUSPECTED` event is HIGH unless
some CDN provider string occurs as a SUBSTRING of the lowercased session
SNI, in which case it is MEDIUM. -/
theorem detectDomainFronting_severity (st : ETAState) (p : EtaParsed)
    (cm : CertMsg) (src dst : String) (now : ℚ) :
    (match (detectDomainFronting st p cm src dst now).2 with
     | none => True
     | some t => t.severity =
         if CDN_PROVIDERS.any (fun cdn => strContains
             (asciiLower (sessionSni st
               (dst ++ ":" ++ src ++ ":" ++ natStr p.src_port))) cdn)
         then "MEDIUM" else "HIGH") := by
  unfold detectDomainFronting
  dsimp only
  split
  · trivial
  · rename_i t heq
    repeat' split at heq
    all_goals (try exact Option.noConfusion heq)
    all_goals (injection heq with ht; rw [← ht])
    all_goals (dsimp only; split <;> simp_all)

/-- As `c8run`, for the spec's own instance: SNI `evil.example.com`
against a certificate whose only SAN is `cdn.akamaized.net`. -/
def c8brun : List Threat :=
  match analyzePacket {}
      { src_ip := "1.2.3.4", dst_ip := "5.6.7.8", sport := 55000,
        dport := 443,
        payload := [22, 3, 1, 0, 72, 1, 0, 0, 68, 3, 3] ++
          List.replicate 32 0 ++
          [0, 0, 2, 0xc0, 0x2f, 1, 0, 0, 25, 0, 0, 0, 21, 0, 19, 0, 0, 16] ++
          asciiBytes "evil.example.com" } 1000 with
  | .ok (st1, _) =>
    (match analyzePacket st1
        { src_ip := "5.6.7.8", dst_ip := "1.2.3.4", sport := 443,
          dport := 55000,
          payload := [22, 3, 3, 0, 32, 11, 0, 0, 28, 0, 0, 25, 0, 0, 22,
            0x55, 0x1d, 0x11, 0x82, 17] ++
            asciiBytes "cdn.akamaized.net" } 1001 with
     | .ok (_, ts) => ts
     | .error _ => [])
  | .error _ => []

/-- C8 (amended): an unmatched SNI yields a `DOMAIN_FRONTING_SUSPECTED`
event whose severity is HIGH, downgraded to MEDIUM exactly when a CDN
provider string from the fixed table occurs as a SUBSTRING of the
lowercased SNI (not a suffix match); the spec's instance — SNI
`evil.example.com` against a certificate whose only SAN is
`cdn.akamaized.net` — yields such an event with severity HIGH. -/
theorem domain_fronting_severity_substring :
    (∀ (st : ETAState) (p : EtaParsed) (cm : CertMsg) (src dst : String)
        (now : ℚ),
      (match (detectDomainFronting st p cm src dst now).2 with
       | none => True
       | some t => t.severity =
           if CDN_PROVIDERS.any (fun cdn => strContains
               (asciiLower (sessionSni st
                 (dst ++ ":" ++ src ++ ":" ++ natStr p.src_port))) cdn)
           then "MEDIUM" else "HIGH")) ∧
    c8brun.map (fun t => (t.typ, t.severity)) =
      [("DOMAIN_FRONTING_SUSPECTED", "HIGH")] :=
  ⟨fun st p cm src dst now => detectDomainFronting_severity st p cm src dst now,
   by with_unfolding_all decide⟩

end ETA

end NetMon

namespace NetMon

/-- C1: each decoder's top-level entry point returns normally on EVERY
input — any state, any packet (including empty, truncated and arbitrary
payload bytes), any clock/timestamp, and for the TLS analyzer any
behaviour of the `cryptography` library.  `ProtocolParser.analyze_packet`
is raise-free because `_analyze_smb` and `_analyze_ldap` catch their own
parse errors; the other two catch everything around their parse calls. -/
theorem analyze_packet_never_raises :
    (∀ (st : PP.PPState) (pkt : Packet) (now : ℚ),
      (PP.analyzePacket st pkt now).isOk = true) ∧
    (∀ (st : ETA.ETAState) (pkt : Packet) (now : ℚ),
      (ETA.analyzePacket st pkt now).isOk = true) ∧
    (∀ (env : TLSA.TlsaEnv) (st : TLSA.TlsaState) (pkt : Packet)
        (ts : String),
      (TLSA.analyzePacket env st pkt ts).isOk = true) := by
  refine ⟨fun st pkt now => ?_, fun st pkt now => ?_,
    fun env st pkt ts => ?_⟩
  · unfold PP.analyzePacket
    dsimp only
    repeat' split
    all_goals rfl
  · unfold ETA.analyzePacket
    dsimp only
    repeat' split
    all_goals rfl
  · unfold TLSA.analyzePacket
    dsimp only
    repeat' split
    all_goals rfl

end NetMon
